import Mathlib

/-!
Verification of the answer-backend core pipeline (`src/app1.py`) against its
natural-language specification.

The program is shallowly embedded: Python strings become `List Char`,
`time.time()` becomes an explicit rational `now`, the process-wide cache
dictionaries become association lists threaded through the functions, and
every external capability (the WordPress REST client, the Cohere rerank and
generate endpoints, `bleach.clean`, `hashlib.sha256`, `secrets.token_urlsafe`,
`python-slugify`, `rank_bm25.BM25Okapi`, `json.loads`) becomes an explicit
oracle parameter, since those live outside the repository.  All repository
code (caching policy, chunking, BM25 candidate selection and fallback,
fingerprinting, rendering, two-phase persistence, TTL sweeps) is translated
faithfully.
-/

set_option linter.unusedVariables false

namespace App1

/-- Python strings are modelled as lists of characters. -/
abbrev Str := List Char

/-- Python's `str.strip()` / `\s` whitespace set (ASCII part). -/
def pySpace (c : Char) : Bool :=
  c == ' ' || c == '\t' || c == '\n' || c == '\x0d' || c == '\x0b' || c == '\x0c'

/-- Python `s.strip()`: drop leading and trailing whitespace. -/
def pyStrip (s : Str) : Str :=
  ((s.dropWhile pySpace).reverse.dropWhile pySpace).reverse

/-- Position of the last `'\n'` strictly after the start of a whitespace run;
used to model the greedy-with-backtracking match of `\s+\n`. -/
def lastNlPos (run : Str) : Option Nat :=
  ((List.range run.length).filter
    (fun p => decide (1 ≤ p) && (run.getD p ' ' == '\n'))).getLast?

/-- `re.sub(r"\s+\n", "\n", text)`: each maximal whitespace run that still has
a `'\n'` after its first character is replaced, up to its last `'\n'`, by a
single `'\n'`; scanning resumes after the replaced span. -/
def pySubWsNl : Str → Str
  | [] => []
  | c :: t =>
    if pySpace c then
      match lastNlPos ((c :: t).takeWhile pySpace) with
      | some p => '\n' :: pySubWsNl ((c :: t).drop (p + 1))
      | none => c :: pySubWsNl t
    else c :: pySubWsNl t
termination_by s => s.length
decreasing_by
  all_goals simp only [List.length_drop, List.length_cons]
  all_goals omega

/-- `re.sub(r"<[^>]+>", "", html)`: drop every `<`…`>` span that has at least
one non-`>` character between the angle brackets. -/
def stripTags : Str → Str
  | [] => []
  | c :: t =>
    if c = '<' then
      let run := t.takeWhile (fun d => d ≠ '>')
      if run.length ≠ 0 ∧ (t.drop run.length).length ≠ 0 then
        stripTags (t.drop (run.length + 1))
      else c :: stripTags t
    else c :: stripTags t
termination_by s => s.length
decreasing_by
  all_goals simp only [List.length_drop, List.length_cons]
  all_goals omega

/-- `_strip_html`: remove markup then strip surrounding whitespace. -/
def strip_html (s : Str) : Str := pyStrip (stripTags s)

/-- `re.sub(r"\s+", " ", s)`: collapse each whitespace run to one space. -/
def collapseWs : Str → Str
  | [] => []
  | c :: t =>
    if pySpace c then ' ' :: collapseWs (t.dropWhile pySpace)
    else c :: collapseWs t
termination_by s => s.length
decreasing_by
  · have h := (List.dropWhile_sublist (l := t) pySpace).length_le
    simp only [List.length_cons]
    omega
  · simp only [List.length_cons]
    omega

/-- Characters matched by the token regex `[a-z0-9]+`. -/
def isTokChar (c : Char) : Bool :=
  ('a' ≤ c && c ≤ 'z') || ('0' ≤ c && c ≤ '9')

/-- Maximal runs of `[a-z0-9]` characters, in order. -/
def alnumRuns : Str → List Str
  | [] => []
  | c :: t =>
    if isTokChar c then
      ((c :: t).takeWhile isTokChar) :: alnumRuns (t.drop (t.takeWhile isTokChar).length)
    else alnumRuns t
termination_by s => s.length
decreasing_by
  all_goals simp only [List.length_drop, List.length_cons]
  all_goals omega

/-- `_tok`: lower-case, then extract `[a-z0-9]+` runs. -/
def tok (s : Str) : List Str := alnumRuns (s.map Char.toLower)

/-- The chunking loop of `chunk_text`: windows of `maxc` characters; the
update `i = max(end - overlap, end)` is kept verbatim from the source.  The
fuel argument only bounds the iteration count; every iteration advances `i`
by at least one, so `n + 1` units of fuel reproduce the Python loop exactly. -/
def chunkLoop (maxc ov n : Nat) (cs : Str) : Nat → Nat → List Str
  | _, 0 => []
  | i, fuel + 1 =>
    if i < n then
      let e := min (i + maxc) n
      let ch := pyStrip ((cs.drop i).take (e - i))
      if ch = [] then chunkLoop maxc ov n cs (max (e - ov) e) fuel
      else ch :: chunkLoop maxc ov n cs (max (e - ov) e) fuel
    else []

/-- `chunk_text(text, max_chars, overlap)`.  The source's only call sites use
the default arguments `max_chars=1200, overlap=120`. -/
def chunk_text (s : Str) (maxc ov : Nat) : List Str :=
  let t := pySubWsNl s
  chunkLoop maxc ov t.length t 0 (t.length + 1)

/-- Decimal digit character for `n < 10`. -/
def decDigit (n : Nat) : Char := Char.ofNat (48 + n)

/-- Decimal representation of a natural number, as produced by Python's
`f"{i}"` formatting of a non-negative `int`. -/
def decRepr (n : Nat) : Str :=
  if h : n < 10 then [decDigit n]
  else decRepr (n / 10) ++ [decDigit (n % 10)]
decreasing_by
  exact Nat.div_lt_self (by omega) (by omega)

/-- Python `str.count(sub)`: non-overlapping occurrences, scanning left to
right.  (`"".count("")` cases do not arise: patterns here are non-empty.) -/
def pyCount (pat : Str) : Str → Nat
  | [] => 0
  | c :: t =>
    if hp : pat ≠ [] ∧ pat.isPrefixOf (c :: t) then
      1 + pyCount pat ((c :: t).drop pat.length)
    else pyCount pat t
termination_by s => s.length
decreasing_by
  · have hpos : 0 < pat.length := List.length_pos.mpr hp.1
    simp only [List.length_drop, List.length_cons]
    omega
  · simp only [List.length_cons]
    omega

/-- Python `str.replace(old, new)` for a non-empty `old`: replace each
leftmost non-overlapping occurrence. -/
def pyReplace (pat rep : Str) : Str → Str
  | [] => []
  | c :: t =>
    if hp : pat ≠ [] ∧ pat.isPrefixOf (c :: t) then
      rep ++ pyReplace pat rep ((c :: t).drop pat.length)
    else c :: pyReplace pat rep t
termination_by s => s.length
decreasing_by
  · have hpos : 0 < pat.length := List.length_pos.mpr hp.1
    simp only [List.length_drop, List.length_cons]
    omega
  · simp only [List.length_cons]
    omega

/-- Number of positions of `s` at which `pat` occurs (occurrences may
overlap); the specification-side occurrence count used to state what
`linkify_citations` leaves untouched. -/
def occCount (pat : Str) : Str → Nat
  | [] => 0
  | c :: t => (if pat.isPrefixOf (c :: t) then 1 else 0) + occCount pat t

/-- `p` occurs as a contiguous substring of `s`. -/
def substrOf (p s : Str) : Prop := ∃ u v, s = u ++ p ++ v

/-- Decimal valuation: specification-side left inverse of `decRepr`. -/
def decVal (s : Str) : Nat := s.foldl (fun a c => a * 10 + (c.toNat - 48)) 0

/-- Stable insertion of `x` into `l` before the first element `y` with
`lt x y`. -/
def insOrd (lt : α → α → Bool) (x : α) : List α → List α
  | [] => [x]
  | y :: ys => if lt x y then x :: y :: ys else y :: insOrd lt x ys

/-- Insertion sort; for a total strict order it produces the unique sorted
permutation. -/
def isortBy (lt : α → α → Bool) (l : List α) : List α := l.foldr (insOrd lt) []

/-- Index order realising CPython's stable descending `sorted`/`list.sort`:
larger key first, ties broken by smaller original index first. -/
def descLt (key : Nat → ℚ) (i j : Nat) : Bool :=
  decide (key j < key i ∨ (key i = key j ∧ i < j))

/-- Ascending variant (for `parts.sort(key=lambda x: x[0])`). -/
def ascLt (key : Nat → ℚ) (i j : Nat) : Bool :=
  decide (key i < key j ∨ (key i = key j ∧ i < j))

/-- `sorted(range(n), key=key, reverse=True)` (stable). -/
def pySortIdxDesc (key : Nat → ℚ) (n : Nat) : List Nat :=
  isortBy (descLt key) (List.range n)

/-- Stable descending sort of a value list by key (Python `list.sort` with
`reverse=True`), realised through its index permutation. -/
def pySortValsDesc (key : α → ℚ) (dflt : α) (l : List α) : List α :=
  (pySortIdxDesc (fun i => key (l.getD i dflt)) l.length).map (fun i => l.getD i dflt)

/-- Stable ascending sort of a value list by key (Python `list.sort`). -/
def pySortValsAsc (key : α → ℚ) (dflt : α) (l : List α) : List α :=
  (isortBy (ascLt (fun i => key (l.getD i dflt))) (List.range l.length)).map
    (fun i => l.getD i dflt)

/-! ### Configuration constants (`app1.py` header) -/

def PAGES_TTL_SEC : ℚ := 86400

def ANSWER_TTL_SEC : ℚ := 43200

def TTL : ℚ := 300

def FINAL_DOCS : Nat := 6

def RERANK_THRESHOLD : ℚ := 1/5

/-! ### Data model -/

/-- A document chunk as produced by the WordPress fetchers. -/
structure Doc where
  post_id : Option Nat
  title : Str
  url : Str
  text_chunk : Str
deriving DecidableEq

/-- A media item dict as produced by `fetch_wp_media` / `get_post_attachments`. -/
structure Img where
  id : Str
  url : Str
  title : Str
  alt : Str
  caption : Str
  width : Option Nat
  height : Option Nat
  srcset : Str
  sizesAttr : Str
deriving DecidableEq

/-- A citation stub `{title, url}`. -/
structure Cit where
  title : Str
  url : Str
deriving DecidableEq

/-- Dedup key: `(c.get("url") or c.get("title") or "").strip().lower()`. -/
def citeKey (c : Cit) : Str :=
  (pyStrip (if c.url ≠ [] then c.url else c.title)).map Char.toLower

/-- The loop of `dedupe_citations`, with the `seen` set made explicit. -/
def dedupeLoop (seen : List Str) : List Cit → List Cit
  | [] => []
  | c :: rest =>
    let key := citeKey c
    if key = [] ∨ key ∈ seen then dedupeLoop seen rest
    else c :: dedupeLoop (key :: seen) rest

/-- `dedupe_citations`: first occurrence wins, order preserved. -/
def dedupe_citations (items : List Cit) : List Cit := dedupeLoop [] items

/-- The literal citation marker `f'[{i}]'`. -/
def citeMark (i : Nat) : Str := '[' :: (decRepr i ++ [']'])

/-- The replacement `f'<sup class="cite"><a href="#src-{i}">{i}</a></sup>'`. -/
def citeRepl (i : Nat) : Str :=
  ("<sup class=\"cite\"><a href=\"#src-".data) ++ decRepr i ++ ("\">".data)
    ++ decRepr i ++ ("</a></sup>".data)

/-- `linkify_citations`: successive `str.replace` passes for `[1]`…`[N]`. -/
def linkify_citations (html : Str) (citations : List Cit) : Str :=
  if citations.isEmpty then html
  else (List.range citations.length).foldl
    (fun out i => pyReplace (citeMark (i + 1)) (citeRepl (i + 1)) out) html

/-- Python `f"{bool_}"` rendering, as used inside the fingerprint string. -/
def pyBoolStr (b : Bool) : Str := if b then ("True".data) else ("False".data)

/-- Question normalisation inside `_cache_key`:
`re.sub(r"\s+", " ", question.strip().lower())`. -/
def normQuestion (q : Str) : Str := collapseWs ((pyStrip q).map Char.toLower)

/-- `_cache_key`: sha256 (oracle `sha`) of the joined fields, first 24 hex
characters. -/
def cache_key (sha : Str → Str) (question layout : Str) (include_citations : Bool)
    (brand_class primary : Str) : Str :=
  (sha (normQuestion question ++ ('|' :: layout) ++ ('|' :: pyBoolStr include_citations)
      ++ ('|' :: brand_class) ++ ('|' :: primary))).take 24

/-- `trace_id_for`: first 16 hex characters of the question's sha256. -/
def trace_id_for (sha : Str → Str) (q : Str) : Str := (sha q).take 16

/-! ### WordPress content fetchers (Content Cache) -/

/-- One page of a paged WordPress listing: either the out-of-range signal
(`400` with `rest_post_invalid_page_number`) or a list of items; a transport
or parse failure is the `Except.error` case of the oracle. -/
inductive WPResp (α : Type) where
  | outOfRange : WPResp α
  | items : List α → WPResp α

/-- A fetched post/page record (`id,link,title,content` fields, with the
`rendered` sub-fields already extracted; absent values are `none`/`[]`). -/
structure WPItem where
  id : Option Nat
  link : Str
  titleRendered : Str
  contentRendered : Str

/-- Conversion of one fetched item into document chunks (shared body of the
inner loops of `fetch_wp_posts` / `fetch_wp_pages`). -/
def wpItemDocs (p : WPItem) : List Doc :=
  let title := strip_html (if p.titleRendered = [] then ("Untitled".data) else p.titleRendered)
  let content := strip_html p.contentRendered
  (chunk_text content 1200 120).map
    (fun ch => { post_id := p.id, title := title, url := p.link, text_chunk := ch })

/-- The paging loop shared by `fetch_wp_posts`/`fetch_wp_pages`: stop on
error, out-of-range, an empty page, or a short page; the fuel is the
`max_pages` bound. -/
def fetchDocsLoop (net : Nat → Except Unit (WPResp WPItem)) (per_page : Nat)
    (acc : List Doc) (page : Nat) : Nat → List Doc
  | 0 => acc
  | fuel + 1 =>
    match net page with
    | .error _ => acc
    | .ok .outOfRange => acc
    | .ok (.items items) =>
      if items.isEmpty then acc
      else
        let acc' := acc ++ (items.map wpItemDocs).flatten
        if items.length < per_page then acc'
        else fetchDocsLoop net per_page acc' (page + 1) fuel

/-- One partition of the content cache (`POSTS_CACHE` / `PAGES_CACHE`). -/
structure DocsCache where
  ts : ℚ
  docs : List Doc
deriving DecidableEq

/-- `fetch_wp_posts`: serve the snapshot while fresh and non-empty; otherwise
re-fetch and unconditionally overwrite the snapshot with whatever the loop
accumulated (source call sites use `per_page=50, max_pages=20`). -/
def fetch_wp_posts (net : Nat → Except Unit (WPResp WPItem)) (cache : DocsCache)
    (now : ℚ) (per_page max_pages : Nat) : DocsCache × List Doc :=
  if ¬ cache.docs.isEmpty ∧ now - cache.ts < TTL then (cache, cache.docs)
  else
    let out := fetchDocsLoop net per_page [] 1 max_pages
    ({ ts := now, docs := out }, out)

/-- `fetch_wp_pages`: identical logic over the pages endpoint
(`per_page=50, max_pages=10`). -/
def fetch_wp_pages (net : Nat → Except Unit (WPResp WPItem)) (cache : DocsCache)
    (now : ℚ) (per_page max_pages : Nat) : DocsCache × List Doc :=
  if ¬ cache.docs.isEmpty ∧ now - cache.ts < TTL then (cache, cache.docs)
  else
    let out := fetchDocsLoop net per_page [] 1 max_pages
    ({ ts := now, docs := out }, out)

/-- One `sizes` entry of a media item's `media_details`. -/
structure WPSize where
  source_url : Option Str
  width : Option Nat

/-- A fetched media record. -/
structure WPMedia where
  id : Nat
  alt_text : Str
  captionRendered : Str
  media_type : Str
  width : Option Nat
  height : Option Nat
  sizes : List WPSize
  source_url : Str
  titleRendered : Str

/-- `", ".join(...)`-style joining. -/
def joinWith (sep : Str) : List Str → Str
  | [] => []
  | [x] => x
  | x :: rest => x ++ sep ++ joinWith sep rest

/-- The `(int(w), f"{u} {w}w")` pairs kept for the `srcset` attribute. -/
def srcsetParts (m : WPMedia) : List (Nat × Str) :=
  m.sizes.filterMap (fun s =>
    match s.source_url, s.width with
    | some u, some w =>
      if ¬ u.isEmpty ∧ w ≠ 0 then some (w, u ++ (' ' :: (decRepr w ++ ['w']))) else none
    | _, _ => none)

/-- Conversion of one media record into an `Img` dict (shared by
`fetch_wp_media` and `get_post_attachments`); non-images are skipped. -/
def mediaImg (m : WPMedia) : Option Img :=
  if m.media_type ≠ ("image".data) then none
  else
    let parts := pySortValsAsc (fun p => (p.1 : ℚ)) (0, []) (srcsetParts m)
    some {
      id := ("wp_".data) ++ decRepr m.id
      url := m.source_url
      title := m.titleRendered
      alt := m.alt_text
      caption := strip_html m.captionRendered
      width := m.width
      height := m.height
      srcset := joinWith (", ".data) (parts.map (fun p => p.2))
      sizesAttr := ("100vw".data) }

/-- The paging loop of `fetch_wp_media` (`per_page=80, max_pages=10`). -/
def fetchMediaLoop (net : Nat → Except Unit (WPResp WPMedia)) (per_page : Nat)
    (acc : List Img) (page : Nat) : Nat → List Img
  | 0 => acc
  | fuel + 1 =>
    match net page with
    | .error _ => acc
    | .ok .outOfRange => acc
    | .ok (.items items) =>
      if items.isEmpty then acc
      else
        let acc' := acc ++ items.filterMap mediaImg
        if items.length < per_page then acc'
        else fetchMediaLoop net per_page acc' (page + 1) fuel

/-- The media partition of the content cache (`MEDIA_CACHE`). -/
structure MediaCache where
  ts : ℚ
  imgs : List Img
deriving DecidableEq

/-- `fetch_wp_media`: same snapshot policy as the document partitions. -/
def fetch_wp_media (net : Nat → Except Unit (WPResp WPMedia)) (cache : MediaCache)
    (now : ℚ) (per_page max_pages : Nat) : MediaCache × List Img :=
  if ¬ cache.imgs.isEmpty ∧ now - cache.ts < TTL then (cache, cache.imgs)
  else
    let imgs := fetchMediaLoop net per_page [] 1 max_pages
    ({ ts := now, imgs := imgs }, imgs)

/-- `get_post_attachments`: uncached per-parent lookups; a failure for one
post id is logged and skipped, and the result is capped at `k`. -/
def get_post_attachments (net : Nat → Except Unit (List WPMedia))
    (post_ids : List Nat) (k : Nat) : List Img :=
  if post_ids.isEmpty then []
  else
    let imgs := (post_ids.map (fun pid =>
      match net pid with
      | .error _ => []
      | .ok items => items.filterMap mediaImg)).flatten
    if k < imgs.length then imgs.take k else imgs

/-! ### Content plans and rendering -/

/-- One section of a Content Plan (`plan["sections"][i]`); absent dict keys
are modelled as `[]`. -/
structure Sect where
  id : Str
  heading : Str
  paragraphs : List Str
  bullets : List Str
deriving DecidableEq

/-- A Content Plan as consumed by the renderer; `plan.get(...)` defaults are
folded into the fields (`None`/missing collapse to `[]` / `false`). -/
structure Plan where
  title : Str
  summary : Str
  show_toc : Bool
  sections : List Sect
deriving DecidableEq

/-- `brand_class[:1].upper()`. -/
def pyUpperFirst (s : Str) : Str :=
  match s with
  | [] => []
  | c :: _ => [c.toUpper]

/-- Contact configuration constants. -/
def CONTACT_EMAIL : Str := ("hello@agent42labs.com".data)

def CONTACT_PHONE : Str := ("+91 7027119799".data)

def CONTACT_URL : Str := ("https://agent42labs.com/contact-us".data)

/-- First `parts.append` of `render_article` (article header). -/
def renderHeader (brand_class : Str) (plan : Plan) : Str :=
    ("\n    <article class=\"".data)
    ++ brand_class
    ++ ("\">\n      <header class=\"".data)
    ++ brand_class
    ++ ("__header\" role=\"banner\">\n        <h1 class=\"".data)
    ++ brand_class
    ++ ("__title\">".data)
    ++ plan.title
    ++ ("</h1>\n        <p class=\"".data)
    ++ brand_class
    ++ ("__summary\" aria-live=\"polite\">".data)
    ++ plan.summary
    ++ ("</p>\n      </header>\n    ".data)

/-- The hero-figure block of `render_article`. -/
def renderHero (brand_class : Str) (hero : Img) : Str :=
    ("\n        <figure class=\"".data)
    ++ brand_class
    ++ ("__hero\" role=\"img\" aria-label=\"".data)
    ++ hero.alt
    ++ ("\">\n          <img src=\"".data)
    ++ hero.url
    ++ ("\" alt=\"".data)
    ++ hero.alt
    ++ ("\" loading=\"lazy\" decoding=\"async\" class=\"".data)
    ++ brand_class
    ++ ("__hero-image\"/>\n          <figcaption class=\"".data)
    ++ brand_class
    ++ ("__hero-caption\">".data)
    ++ hero.caption
    ++ ("</figcaption>\n        </figure>\n        ".data)

/-- One TOC entry. -/
def renderTocEntry (brand_class : Str) (sect : Sect) : Str :=
    ("<li><a href=\"#".data)
    ++ sect.id
    ++ ("\" class=\"".data)
    ++ brand_class
    ++ ("__toc-link\">".data)
    ++ sect.heading
    ++ ("</a></li>".data)

/-- The table-of-contents block (`if plan.get("show_toc")`). -/
def renderToc (brand_class : Str) (sections : List Sect) : Str :=
    ("\n        <nav class=\"".data)
    ++ brand_class
    ++ ("__toc\" aria-label=\"Table of contents\">\n          <p class=\"".data)
    ++ brand_class
    ++ ("__toc-title\">Contents</p>\n          <ul class=\"".data)
    ++ brand_class
    ++ ("__toc-list\">\n        ".data)
    ++ (sections.map (renderTocEntry brand_class)).flatten
    ++ ("</ul></nav>".data)

/-- One paragraph: a leading `>` (after stripping) becomes a blockquote. -/
def renderPara (brand_class : Str) (para : Str) : Str :=
  match pyStrip para with
  | '>' :: rest =>
    ("<blockquote class=\"".data)
    ++ brand_class
    ++ ("__blockquote\">".data)
    ++ pyStrip rest
    ++ ("</blockquote>".data)
  | _ =>
    ("<p class=\"".data)
    ++ brand_class
    ++ ("__paragraph\">".data)
    ++ para
    ++ ("</p>".data)

/-- One section block of `render_article`. -/
def renderSect (brand_class : Str) (sect : Sect) : Str :=
    ("<section id=\"".data)
    ++ sect.id
    ++ ("\" class=\"".data)
    ++ brand_class
    ++ ("__section\" tabindex=\"-1\">".data)
    ++
    ("<h2 class=\"".data)
    ++ brand_class
    ++ ("__section-title\">".data)
    ++ sect.heading
    ++ ("</h2>".data)
    ++ (sect.paragraphs.map (renderPara brand_class)).flatten
    ++ (if sect.bullets.isEmpty then [] else
        ("<ul class=\"".data)
        ++ brand_class
        ++ ("__list\">".data)
        ++ (sect.bullets.map (fun b =>
            ("<li>".data)
            ++ b
            ++ ("</li>".data))).flatten
        ++ ("</ul>".data))
    ++ ("</section>".data)

/-- One sources-footer entry (`enumerate(citations, 1)`). -/
def renderCiteLi (i : Nat) (c : Cit) : Str :=
  let url := if c.url = [] then ("#".data) else c.url
  let title := if c.title = [] then url else c.title
  ("<li id=\"src-".data)
    ++ decRepr i
    ++ ("\"><a href=\"".data)
    ++ url
    ++ ("\" target=\"_blank\" rel=\"noopener noreferrer\">".data)
    ++ title
    ++ ("</a></li>".data)

/-- The sources footer of `render_article`. -/
def renderFooter (brand_class : Str) (citations : List Cit) : Str :=
    ("\n        <footer class=\"".data)
    ++ brand_class
    ++ ("__sources\" aria-label=\"Content sources\">\n          <h2 class=\"".data)
    ++ brand_class
    ++ ("__sources-title\">Sources</h2>\n          <ol class=\"".data)
    ++ brand_class
    ++ ("__sources-list\">\n        ".data)
    ++ (citations.enum.map (fun ic => renderCiteLi (ic.1 + 1) ic.2)).flatten
    ++ ("</ol></footer>".data)

/-- `render_article`: header, optional hero figure, optional TOC, sections,
optional sources footer, closing tag (the commented-out gallery block of the
source emits nothing). -/
def render_article (plan : Plan) (citations : List Cit) (brand_class : Str)
    (include_citations : Bool) (images : List Img) : Str :=
  renderHeader brand_class plan
    ++ (match images.head? with
        | some hero => renderHero brand_class hero
        | none => [])
    ++ (if plan.show_toc then renderToc brand_class plan.sections else [])
    ++ (plan.sections.map (renderSect brand_class)).flatten
    ++ (if include_citations ∧ ¬ citations.isEmpty then renderFooter brand_class citations
        else [])
    ++ ("</article>".data)

/-- `build_fullpage_html`: the standalone page shell.  `slug` is the
`python-slugify` oracle; the contact parameters always take their
defaults at the one call site. -/
def build_fullpage_html (slug : Str → Str) (title article_html brand_class primary trace_id page_id base_url : Str) : Str :=
  let canonical := base_url ++ ("/v/".data) ++ page_id
  let download_url := canonical ++ ("/download".data)
  let safe_title := slug (if title = [] then ("article".data) else title)
  ("<!doctype html>\n<html lang=\"en\">\n<head>\n  <meta charset=\"utf-8\" />\n  <title>".data)
  ++ title
  ++ ("</title>\n  <meta name=\"description\" content=\"Detailed article page for ".data)
  ++ title
  ++ ("\" />\n  <meta name=\"viewport\" content=\"width=device-width, initial-scale=1\" />\n  <meta name=\"x-trace-id\" content=\"".data)
  ++ trace_id
  ++ ("\" />\n  <link rel=\"canonical\" href=\"".data)
  ++ canonical
  ++ ("\" />\n  <meta property=\"og:title\" content=\"".data)
  ++ title
  ++ ("\" />\n  <meta property=\"og:type\" content=\"article\" />\n  <meta property=\"og:url\" content=\"".data)
  ++ canonical
  ++ ("\" />\n  <meta name=\"theme-color\" content=\"".data)
  ++ primary
  ++ ("\" />\n  <style>\n    :root \x7b\n      --primary: ".data)
  ++ primary
  ++ (";\n      --text: #0f172a;\n      --muted: #64748b;\n      --bg: #f3f6fb;\n      --card-bg: rgba(255, 255, 255, 0.3);\n      --border: rgba(15, 23, 42, 0.08);\n      --shadow-default: 0 14px 40px rgba(15, 23, 42, 0.08);\n      --shadow-glass: 0 8px 32px 0 rgba(31, 38, 135, 0.37);\n      --pill-radius: 9999px;\n      --card-radius: 16px;\n      --max-width: 980px;\n      --font-family: ui-sans-serif, system-ui, -apple-system, Segoe UI, Roboto, Inter, Arial, sans-serif;\n    \x7d\n    html, body \x7b\n      margin: 0; padding: 0;\n      background: var(--bg);\n      color: var(--text);\n      font-family: var(--font-family);\n      scroll-behavior: smooth;\n      min-height: 100vh;\n    \x7d\n\n    /* Removed top header for buttons */\n\n    .wrap \x7b\n      margin: 18px auto 40px;\n      max-width: var(--max-width);\n      padding: 0 16px;\n      min-height: calc(100vh - 150px);\n      display: flex;\n      justify-content: center;\n      align-items: flex-start;\n    \x7d\n\n    .card \x7b\n      background: var(--card-bg);\n      border-radius: var(--card-radius);\n      box-shadow: var(--shadow-glass);\n      border: 1px solid rgba(255, 255, 255, 0.18);\n      backdrop-filter: blur(8px);\n      -webkit-backdrop-filter: blur(8px);\n      padding: clamp(24px, 3vw, 32px);\n      width: 100%;\n      max-width: var(--max-width);\n      display: flex;\n      flex-direction: column;\n      box-sizing: border-box;\n    \x7d\n\n    /* Moved action buttons inside card, style them */\n    .actions \x7b\n      display: flex;\n      flex-wrap: wrap;\n      gap: 8px;\n      align-items: center;\n      justify-content: flex-end;\n      margin-bottom: 1.5rem;\n      min-width: 200px;\n    \x7d\n    @media (max-width: 480px) \x7b\n      .actions \x7b\n        flex-direction: column;\n        align-items: stretch;\n        gap: 6px;\n        min-width: 100%;\n      \x7d\n    \x7d\n\n    .btn \x7b\n      display: inline-flex;\n      align-items: center;\n      gap: 8px;\n      font-weight: 700;\n      padding: 9px 12px;\n      border-radius: var(--pill-radius);\n      border: 1px solid var(--border);\n      background: #eef2f7;\n      color: var(--text);\n      cursor: pointer;\n      text-decoration: none;\n      transition: transform 0.08s ease, filter 0.2s ease;\n      font-size: 0.9rem;\n      user-select: none;\n    \x7d\n    .btn:hover \x7b\n      filter: brightness(1.02);\n    \x7d\n    .btn:active \x7b\n      transform: translateY(1px);\n    \x7d\n    .btn:focus \x7b\n      outline: 2px solid var(--primary);\n      outline-offset: 2px;\n      outline-style: solid;\n    \x7d\n    .btn.primary \x7b\n      background: var(--primary);\n      color: #fff;\n      border-color: transparent;\n      box-shadow: 0 12px 26px rgba(34,197,94,0.25);\n    \x7d\n\n    /* Brand chip and contact styling */\n    .brand \x7b\n      display: flex;\n      align-items: center;\n      gap: 12px;\n      margin-top: 2rem;\n      user-select: none;\n    \x7d\n    .chip \x7b\n      width: 36px;\n      height: 36px;\n      display: grid;\n      place-items: center;\n      border-radius: 50%;\n      background: var(--primary);\n      color: #fff;\n      font-weight: 900;\n      font-size: 18px;\n      box-shadow: 0 8px 20px rgba(34, 197, 94, 0.35);\n      flex-shrink: 0;\n    \x7d\n    .brand-name \x7b\n      font-weight: 600;\n      font-size: 1.125rem;\n      color: #3b3c4a;\n      user-select: text;\n    \x7d\n    .contact \x7b\n      margin-top: 1.25rem;\n      font-size: 1rem;\n      color: var(--muted, #64748b);\n      line-height: 1.5;\n    \x7d\n    .contact strong \x7b\n      display: block;\n      margin-bottom: 0.4rem;\n      color: var(--text);\n      font-weight: 600;\n    \x7d\n    .contact a \x7b\n      color: var(--primary);\n      text-decoration: none;\n      transition: color 0.2s ease;\n    \x7d\n    .contact a:hover \x7b\n      text-decoration: underline;\n    \x7d\n\n    /* Spacing between paragraphs and lists */\n    .".data)
  ++ brand_class
  ++ (" p,\n    .".data)
  ++ brand_class
  ++ (" li,\n    .".data)
  ++ brand_class
  ++ (" ul,\n    .".data)
  ++ brand_class
  ++ (" ol \x7b\n      margin-bottom: 0.85em;\n    \x7d\n\n    .".data)
  ++ brand_class
  ++ (" ul, .".data)
  ++ brand_class
  ++ (" ol \x7b\n      margin-top: 0.5em;\n      padding-left: 2em;\n    \x7d\n\n    .".data)
  ++ brand_class
  ++ (" li \x7b\n      line-height: 1.8;\n    \x7d\n\n    @media print \x7b\n      .actions \x7b\n        display: none !important;\n      \x7d\n      body \x7b\n        background: #fff;\n      \x7d\n      .card \x7b\n        box-shadow: none;\n        border: none;\n        padding: 0;\n        backdrop-filter: none;\n      \x7d\n      a \x7b\n        color: #000;\n        text-decoration: underline;\n      \x7d\n    \x7d\n  </style>\n</head>\n<body>\n\n  <main class=\"wrap\" role=\"main\">\n    <div class=\"card ".data)
  ++ brand_class
  ++ ("\">\n\n      <!-- Actions moved inside card -->\n      <nav class=\"actions\" aria-label=\"Page actions\">\n        <a class=\"btn primary\" href=\"".data)
  ++ download_url
  ++ ("\" download=\"".data)
  ++ safe_title
  ++ (".html\" aria-label=\"Download article as HTML\">\n          <svg width=\"16\" height=\"16\" viewBox=\"0 0 24 24\" stroke=\"currentColor\" fill=\"none\" stroke-width=\"2\" aria-hidden=\"true\">\n            <path d=\"M12 3v12\"/>\n            <path d=\"M7 10l5 5 5-5\"/>\n            <path d=\"M5 21h14\"/>\n          </svg>\n          Download .html\n        </a>\n        <button class=\"btn\" id=\"print\" aria-label=\"Print or save as PDF\" title=\"Print or Save as PDF\">\n          <svg width=\"16\" height=\"16\" viewBox=\"0 0 24 24\" stroke=\"currentColor\" fill=\"none\" stroke-width=\"2\" aria-hidden=\"true\">\n            <path d=\"M6 9V2h12v7\"/>\n            <path d=\"M6 18h12v4H6z\"/>\n            <path d=\"M6 14h12\"/>\n          </svg>\n          Print / Save as PDF\n        </button>\n        <button class=\"btn\" id=\"copy\" aria-label=\"Copy current page link\" title=\"Copy Link\">\n          <svg width=\"16\" height=\"16\" viewBox=\"0 0 24 24\" stroke=\"currentColor\" fill=\"none\" stroke-width=\"2\" aria-hidden=\"true\">\n            <rect x=\"9\" y=\"9\" width=\"13\" height=\"13\" rx=\"2\"/>\n            <rect x=\"2\" y=\"2\" width=\"13\" height=\"13\" rx=\"2\"/>\n          </svg>\n          Copy link\n        </button>\n      </nav>\n\n      ".data)
  ++ article_html
  ++ ("\n\n      <div class=\"brand\" aria-label=\"Brand identity\">\n        <div class=\"chip\" aria-label=\"Brand initial\">".data)
  ++ pyUpperFirst brand_class
  ++ ("</div>\n        <div class=\"brand-name\">".data)
  ++ brand_class
  ++ ("</div>\n      </div>\n      <div class=\"contact\" aria-label=\"Contact information\">\n        <strong>Contact us</strong>\n        Email: <a href=\"mailto:".data)
  ++ CONTACT_EMAIL
  ++ ("\">".data)
  ++ CONTACT_EMAIL
  ++ ("</a> · Phone: ".data)
  ++ CONTACT_PHONE
  ++ (" ·\n        <a href=\"".data)
  ++ CONTACT_URL
  ++ ("\" target=\"_blank\" rel=\"noopener noreferrer\">Contact page</a>\n      </div>\n    </div>\n  </main>\n  <script>\n    document.getElementById(\x27print\x27).onclick = () => window.print();\n    document.getElementById(\x27copy\x27).onclick = async () => \x7b\n      try \x7b\n        await navigator.clipboard.writeText(window.location.href);\n        const btn = document.getElementById(\x27copy\x27);\n        const originalText = btn.textContent;\n        btn.textContent = \x27Copied!\x27;\n        setTimeout(() => btn.textContent = originalText, 1000);\n      \x7d catch (e) \x7b\n        console.warn(\x27Clipboard write failed\x27, e);\n      \x7d\n    \x7d;\n  </script>\n</body>\n</html>\n".data)

/-! ### Search and ranking -/

/-- One entry of a rerank response (`{index, relevance_score}`); a missing
score is `none`. -/
structure RerankResult where
  index : Nat
  relevance_score : Option ℚ

/-- Placeholder `Doc` for (unreachable) out-of-range indexing. -/
def dfltDoc : Doc := ⟨none, [], [], []⟩

/-- `search_docs(query, k)`: BM25 candidate selection (the `rank_bm25`
library is the `bm25` oracle; CPython's stable descending `sorted` is
`pySortIdxDesc`), then the rerank oracle, falling back to the lexical top-k
on error or an empty rerank response.  `allDocs` is the `get_all_docs()`
snapshot of the content cache. -/
def search_docs (allDocs : List Doc)
    (bm25 : List (List Str) → List Str → List ℚ)
    (rerank : Str → List Str → Nat → Except Unit (List RerankResult))
    (query : Str) (k : Nat) : List Doc :=
  let docs := allDocs
  if docs.isEmpty then []
  else
    let corpus := docs.map (fun d => d.text_chunk)
    let scores := bm25 (corpus.map tok) (tok query)
    let M := max (k * 5) k
    let top_idx := (pySortIdxDesc (fun i => scores.getD i 0) scores.length).take
        (min M scores.length)
    let cand0 := top_idx.map (fun i => docs.getD i dfltDoc)
    let candidates := if cand0.isEmpty then docs.take M else cand0
    match rerank query (candidates.map (fun c => c.text_chunk)) (min k candidates.length) with
    | .ok rr =>
      if rr.isEmpty then candidates.take k
      else rr.map (fun r => candidates.getD r.index dfltDoc)
    | .error _ => candidates.take k

/-! ### Planning -/

/-- A source record as assembled by the compose pipeline
(`{"title": ..., "url": ..., "text_chunk": ...}`). -/
structure Src where
  title : Str
  url : Str
  text_chunk : Str
deriving DecidableEq

def dfltSrc : Src := ⟨[], [], []⟩

/-- One numbered context line `f"[{i}] {title} — {url}\n{t}"` of the planner
prompt, with the 1800-character cap. -/
def plannerCtxLine (i : Nat) (s : Src) : Str :=
  let t := if 1800 < s.text_chunk.length then s.text_chunk.take 1800 else s.text_chunk
  '[' :: (decRepr i ++ ("] ".data)) ++ s.title ++ (" — ".data) ++ s.url ++ ('\n' :: t)

/-- `build_planner_prompt` (its `include_citations` parameter is unused in
the source body as well). -/
def build_planner_prompt (question : Str) (sources : List Src) (layout : Str)
    (include_citations : Bool) : Str :=
  ("You are a content planner. Output ONE JSON object ONLY (no markdown, no extra text).\nUse only facts from the sources. Every factual sentence must end with a [n] citation that matches a numbered source.\nIf a claim is not supported by the sources, omit it.\nLayout: ".data)
    ++ layout
    ++ ("\nSchema: \x7b \"title\": str, \"summary\": str, \"show_toc\": bool, \"sections\": [ \x7b\"id\": str, \"heading\": str, \"paragraphs\": [str], \"bullets\": [str]\x7d ] \x7d\n\nUser question:\n".data)
    ++ question
    ++ ("\n\nRelevant sources (cite as [n]):\n".data)
    ++ joinWith ("\n\n".data) (sources.enum.map (fun is => plannerCtxLine (is.1 + 1) is.2))

def leftBrace : Char := Char.ofNat 123

def rightBrace : Char := Char.ofNat 125

/-- `txt.find(c)`. -/
def firstIdx (c : Char) (s : Str) : Option Nat :=
  ((List.range s.length).filter (fun p => s.getD p ' ' == c)).head?

/-- `txt.rfind(c)`. -/
def lastIdx (c : Char) (s : Str) : Option Nat :=
  ((List.range s.length).filter (fun p => s.getD p ' ' == c)).getLast?

/-- `txt[txt.find("{") : txt.rfind("}") + 1]` when both brackets are found
in the right order (`end > start`). -/
def braceSlice (txt : Str) : Option Str :=
  match firstIdx leftBrace txt, lastIdx rightBrace txt with
  | some s, some e => if s < e then some ((txt.drop s).take (e + 1 - s)) else none
  | _, _ => none

/-- `cohere_plan`: generation oracle, strip, direct `json.loads` (the
`parseJson` oracle), then the first-`{`-to-last-`}` slice, else an error
(`ValueError` / the slice's own `json.loads` failure), which the caller
catches. -/
def cohere_plan (gen : Str → Except Unit Str) (parseJson : Str → Option Plan)
    (prompt : Str) : Except Unit Plan :=
  match gen prompt with
  | .error e => .error e
  | .ok raw =>
    let txt := pyStrip raw
    match parseJson txt with
    | some p => .ok p
    | none =>
      match braceSlice txt with
      | some sl =>
        match parseJson sl with
        | some p => .ok p
        | none => .error ()
      | none => .error ()

/-! ### Page store, answer cache and the compose orchestrator -/

/-- A stored page (`PAGES[pid]`). -/
structure Page where
  title : Str
  html : Str
  ts : ℚ
deriving DecidableEq

/-- An answer-cache entry (`ANSWER_CACHE[key]`). -/
structure CEnt where
  page_id : Str
  ts : ℚ
deriving DecidableEq

/-- The process-wide mutable state: the `PAGES` and `ANSWER_CACHE` dicts as
insertion-ordered association lists. -/
structure St where
  pages : List (Str × Page)
  answers : List (Str × CEnt)
deriving DecidableEq

/-- Python dict assignment `d[k] = v`: overwrite in place or append. -/
def dset (k : Str) (v : β) : List (Str × β) → List (Str × β)
  | [] => [(k, v)]
  | (k', v') :: rest => if k' = k then (k, v) :: rest else (k', v') :: dset k v rest

/-- `_cleanup_pages`: drop pages older than `PAGES_TTL_SEC`. -/
def cleanup_pages (now : ℚ) (ps : List (Str × Page)) : List (Str × Page) :=
  ps.filter (fun kv => ! decide (PAGES_TTL_SEC < now - kv.2.ts))

/-- `_cleanup_answers`: drop entries older than `ANSWER_TTL_SEC`. -/
def cleanup_answers (now : ℚ) (ans : List (Str × CEnt)) : List (Str × CEnt) :=
  ans.filter (fun kv => ! decide (ANSWER_TTL_SEC < now - kv.2.ts))

/-- `_save_page`: sweep, then store under a fresh id from the
`secrets.token_urlsafe(10)` oracle. -/
def save_page (newId : Str) (now : ℚ) (title html : Str)
    (pages : List (Str × Page)) : Str × List (Str × Page) :=
  let ps := cleanup_pages now pages
  (newId, dset newId ⟨title, html, now⟩ ps)

/-- `PAGES[pid]["html"] = full_html`: overwrite only the html field. -/
def setPageHtml (pid : Str) (html : Str) (ps : List (Str × Page)) : List (Str × Page) :=
  ps.map (fun kv => if kv.1 = pid then (kv.1, { kv.2 with html := html }) else kv)

/-- The environment of one compose call: the clock, the fresh-id stream and
the external capabilities.  `allDocs` and `media` stand for the values
`get_all_docs()` / `fetch_wp_media()` return at this call (their caching
behaviour is modelled separately by the fetchers above). -/
structure Env where
  now : ℚ
  ids : Nat → Str
  sha : Str → Str
  slug : Str → Str
  san : Str → Str
  allDocs : List Doc
  bm25 : List (List Str) → List Str → List ℚ
  rerank : Str → List Str → Nat → Except Unit (List RerankResult)
  attach : Nat → Except Unit (List WPMedia)
  media : List Img
  gen : Str → Except Unit Str
  parseJson : Str → Option Plan

/-- The `{id, title, trace_id}` descriptor `compose_answer_page` returns. -/
structure ComposeRes where
  id : Str
  title : Str
  trace_id : Str
deriving DecidableEq

/-- The fixed no-sources fallback plan. -/
def noSourcesPlan : Plan :=
  { title := ("No sources available".data)
    summary := []
    show_toc := false
    sections := [{ id := ("s1".data)
                   heading := ("Please try again".data)
                   paragraphs := [("We couldn\x27t find any relevant sources from the site. Try rephrasing your question.".data)]
                   bullets := [] }] }

/-- The fixed low-confidence fallback plan. -/
def lowConfPlan : Plan :=
  { title := ("We couldn’t find a confident answer".data)
    summary := []
    show_toc := false
    sections := [{ id := ("s1".data)
                   heading := ("Try rephrasing your question".data)
                   paragraphs := [("We couldn’t confidently answer from the site’s content. Please rephrase or narrow the topic.".data)]
                   bullets := [] }]  }

/-- The store/memoize/return tail shared verbatim by all three compose
branches: save under the placeholder id `"tmp"` to materialise a real id,
rebuild the full page html with the real id, overwrite it in place, record
the answer-cache entry, and return the descriptor. -/
def finishPage (env : Env) (st : St) (ck trace_id title safe brand_class primary base_url : Str) :
    ComposeRes × St :=
  let saved := save_page (env.ids 0) env.now title
      (build_fullpage_html env.slug title safe brand_class primary trace_id ("tmp".data) base_url)
      st.pages
  let pid := saved.1
  let full := build_fullpage_html env.slug title safe brand_class primary trace_id pid base_url
  let ps2 := setPageHtml pid full saved.2
  let ans := dset ck ⟨pid, env.now⟩ st.answers
  (⟨pid, title, trace_id⟩, { pages := ps2, answers := ans })

/-- The fallback page construction shared by the no-sources and
low-confidence branches (their source blocks are identical up to the plan). -/
def composeFallback (env : Env) (st : St) (ck trace_id : Str) (plan : Plan)
    (brand_class primary base_url : Str) : ComposeRes × St :=
  let article := render_article plan [] brand_class false []
  let safe := linkify_citations (env.san article) []
  finishPage env st ck trace_id plan.title safe brand_class primary base_url

/-- The confidence probe: rerank the hits with `top_n=1`; default `1.0` on
error or an empty response, `or 0.0` on a missing score. -/
def topScoreOf (env : Env) (question : Str) (doc_hits : List Doc) : ℚ :=
  match env.rerank question (doc_hits.map (fun d => d.text_chunk)) 1 with
  | .error _ => 1
  | .ok [] => 1
  | .ok (r :: _) =>
    match r.relevance_score with
    | some s => s
    | none => 0

/-- The `sources` list of the synthesis branch (titles defaulted, excerpts
capped at 1800 characters). -/
def mkSources (doc_hits : List Doc) : List Src :=
  (doc_hits.take FINAL_DOCS).map (fun h =>
    { title := if h.title = [] then ("Untitled".data) else h.title
      url := h.url
      text_chunk := h.text_chunk.take 1800 })

/-- The single-source passthrough plan used on any planner failure. -/
def plannerFallbackPlan (top : Src) : Plan :=
  { title := top.title
    summary := []
    show_toc := false
    sections := [{ id := ("s1".data)
                   heading := top.title
                   paragraphs := [top.text_chunk]
                   bullets := [] }] }

def dfltImg : Img := ⟨[], [], [], [], [], none, none, [], []⟩

/-- The keyword score of a cached media item against the question terms:
`sum(text.count(t) for t in terms)` over `" ".join([title, alt, caption]).lower()`. -/
def imgKeywordScore (terms : List Str) (i : Img) : ℚ :=
  ((terms.map (fun t =>
      pyCount t ((joinWith [' '] [i.title, i.alt, i.caption]).map Char.toLower))).sum : Nat)

/-- The image-selection step of the synthesis branch: attachments of the
originating posts (capped at 3), else the keyword-scored cached media. -/
def synthImages (env : Env) (question : Str) (doc_hits : List Doc) : List Img :=
  let post_ids := doc_hits.filterMap (fun h =>
    h.post_id.bind (fun n => if n = 0 then none else some n))
  let images0 := get_post_attachments env.attach post_ids 3
  if images0.isEmpty then
    (pySortValsDesc (imgKeywordScore (tok question)) dfltImg env.media).take 3
  else images0

/-- The full-synthesis branch of `compose_answer_page`. -/
def composeSynth (env : Env) (st : St) (ck trace_id question layout : Str)
    (include_citations : Bool) (brand_class primary base_url : Str)
    (doc_hits : List Doc) : ComposeRes × St :=
  let sources := mkSources doc_hits
  let citations := dedupe_citations (sources.map (fun s => ⟨s.title, s.url⟩))
  let images := synthImages env question doc_hits
  let prompt := build_planner_prompt question sources layout include_citations
  let plan :=
    match cohere_plan env.gen env.parseJson prompt with
    | .ok p => p
    | .error _ => plannerFallbackPlan (sources.headD dfltSrc)
  let article := render_article plan citations brand_class include_citations images
  let safe := linkify_citations (env.san article) citations
  let title := if plan.title = [] then ("Article".data) else plan.title
  finishPage env st ck trace_id title safe brand_class primary base_url

/-- The answer-cache fast path test: an entry for the key whose page id is
still present in `PAGES` (which is *not* swept here). -/
def memoHit (answers : List (Str × CEnt)) (pages : List (Str × Page)) (ck : Str) :
    Option (Str × Page) :=
  match answers.lookup ck with
  | some ent =>
    match pages.lookup ent.page_id with
    | some p => some (ent.page_id, p)
    | none => none
  | none => none

/-- `compose_answer_page`: answer-cache sweep and fast path, retrieval and
ranking, confidence gate, synthesis or fallback. -/
def compose_answer_page (env : Env) (st : St) (question layout : Str)
    (include_citations : Bool) (brand_class primary base_url : Str) : ComposeRes × St :=
  let trace_id := trace_id_for env.sha question
  let answers1 := cleanup_answers env.now st.answers
  let st1 : St := { pages := st.pages, answers := answers1 }
  let ck := cache_key env.sha question layout include_citations brand_class primary
  match memoHit answers1 st.pages ck with
  | some hit => (⟨hit.1, hit.2.title, trace_id⟩, st1)
  | none =>
    let doc_hits := search_docs env.allDocs env.bm25 env.rerank question FINAL_DOCS
    if doc_hits.isEmpty then
      composeFallback env st1 ck trace_id noSourcesPlan brand_class primary base_url
    else
      let top_score := topScoreOf env question doc_hits
      if RERANK_THRESHOLD ≠ 0 ∧ top_score < RERANK_THRESHOLD then
        composeFallback env st1 ck trace_id lowConfPlan brand_class primary base_url
      else
        composeSynth env st1 ck trace_id question layout include_citations
          brand_class primary base_url doc_hits

/-- `GET /v/<page_id>`: sweep, then serve the stored html or 404 (`none`). -/
def view_page (st : St) (now : ℚ) (page_id : Str) : St × Option Str :=
  let ps := cleanup_pages now st.pages
  ({ st with pages := ps }, (ps.lookup page_id).map (fun p => p.html))

/-- `GET /v/<page_id>/download`: sweep, then serve the html as an attachment
whose filename is `secure_filename(f"{title}-{page_id}.html")` (the
`werkzeug` helper is the `sf` oracle); 404 is `none`. -/
def download_page (sf : Str → Str) (st : St) (now : ℚ) (page_id : Str) :
    St × Option (Str × Str) :=
  let ps := cleanup_pages now st.pages
  ({ st with pages := ps },
   (ps.lookup page_id).map (fun p =>
     (sf (p.title ++ ('-' :: page_id) ++ (".html".data)), p.html)))

/-! ### Concrete fixtures used by the theorems and witnesses below -/

/-- A 1300-character input whose two windows expose the chunking behaviour. -/
def c3Text : Str := List.replicate 1200 'x' ++ List.replicate 100 'y'

/-- A pre-existing snapshot document. -/
def c2Doc : Doc := ⟨some 1, ("Old".data), ("u".data), ("old chunk".data)⟩

/-- A two-document corpus for the search fallback witness. -/
def c4Docs : List Doc :=
  [⟨some 5, ("TitleA".data), ("ua".data), ("chunk A".data)⟩,
   ⟨some 6, ("TitleB".data), ("ub".data), ("chunk B".data)⟩]

/-- A BM25 oracle returning fixed scores. -/
def c4Bm25 : List (List Str) → List Str → List ℚ := fun _ _ => [2, 1]

/-- A rerank oracle that raises on every call. -/
def failRerank : Str → List Str → Nat → Except Unit (List RerankResult) :=
  fun _ _ _ => .error ()

/-- A citation and an html fixture for the linkification witness. -/
def c10Cit : Cit := ⟨("T".data), ("u".data)⟩

def c10Html : Str := ("See [1] and [3]".data)

/-- A network oracle that fails outright on every page. -/
def failNet : Nat → Except Unit (WPResp WPItem) := fun _ => .error ()

/-- A failing media network oracle. -/
def failNetM : Nat → Except Unit (WPResp WPMedia) := fun _ => .error ()

/-- A constant sha-256 oracle for the compose witnesses. -/
def wSha : Str → Str :=
  fun _ => ("0123456789abcdef0123456789abcdef0123456789abcdef0123456789abcdef".data)

/-- A constant fresh-id oracle (like `secrets.token_urlsafe(10)`: 14 url-safe
characters per id). -/
def wIds : Nat → Str := fun _ => ("idABCDEFGH1234".data)

/-- A single-document corpus; together with a one-score BM25 oracle it keeps
the candidate sort comparison-free. -/
def c9Doc : Doc := ⟨some 7, ("TitleC".data), ("uc".data), ("chunk C text".data)⟩

def oneBm25 : List (List Str) → List Str → List ℚ := fun _ _ => [2]

/-- A rerank oracle that always reports a low confidence score. -/
def lowRerank : Str → List Str → Nat → Except Unit (List RerankResult) :=
  fun _ _ _ => .ok [⟨0, some (1/10)⟩]

/-- The base concrete environment of the compose witnesses: one cached
document, a rerank capability that raises on every call, and failing
generation. -/
def c9Env : Env :=
  { now := 1000
    ids := wIds
    sha := wSha
    slug := fun s => s
    san := fun s => s
    allDocs := [c9Doc]
    bm25 := oneBm25
    rerank := failRerank
    attach := fun _ => .error ()
    media := []
    gen := fun _ => .error ()
    parseJson := fun _ => none }

def emptySt : St := ⟨[], []⟩

/-- The empty-corpus variant (no-sources scenario). -/
def c5EnvA : Env := { c9Env with allDocs := [] }

/-- The low-confidence variant (the probe succeeds with a score below 0.20). -/
def c5EnvB : Env := { c9Env with rerank := lowRerank }

/-- Unparseable planner output, and the environment whose generation
capability returns it. -/
def c6Raw : Str := ("this is not a plan object".data)

def c6Env : Env := { c9Env with gen := fun _ => .ok c6Raw }

/-- An expired stored page (created at time 0) with the answer-cache entry
recorded alongside it, observed at `now = 100000 > PAGES_TTL_SEC`. -/
def c8Q : Str := ("what services do you offer".data)

def c8Key : Str :=
  cache_key wSha c8Q ("standard".data) true ("agent42labs".data) ("#16a34a".data)

def c8Page : Page := ⟨("T".data), ("<html></html>".data), 0⟩

def c8St : St := ⟨[(("pidOLD8".data), c8Page)], [(c8Key, ⟨("pidOLD8".data), 0⟩)]⟩

def c8Env : Env := { c9Env with now := 100000 }

end App1

namespace App1

/-! ### Helper lemmas -/

theorem fetchDocsLoop_error_first (net : Nat → Except Unit (WPResp WPItem))
    (per : Nat) (h : net 1 = .error ()) :
    ∀ fuel, fetchDocsLoop net per [] 1 fuel = [] := by
  intro fuel
  cases fuel with
  | zero => rfl
  | succ n => simp [fetchDocsLoop, h]

theorem fetchMediaLoop_error_first (net : Nat → Except Unit (WPResp WPMedia))
    (per : Nat) (h : net 1 = .error ()) :
    ∀ fuel, fetchMediaLoop net per [] 1 fuel = [] := by
  intro fuel
  cases fuel with
  | zero => rfl
  | succ n => simp [fetchMediaLoop, h]

theorem pySubWsNl_eq_self (s : Str) (h : ∀ c ∈ s, pySpace c = false) :
    pySubWsNl s = s := by
  induction s with
  | nil => simp [pySubWsNl]
  | cons c t ih =>
    have hc : pySpace c = false := h c (by simp)
    simp only [pySubWsNl, hc, Bool.false_eq_true, if_false]
    exact congrArg (c :: ·) (ih (fun d hd => h d (by simp [hd])))

/-! ### C3 — chunking overlap and losslessness -/

theorem dropWhile_all_false {p : α → Bool} {l : List α}
    (h : ∀ c ∈ l, p c = false) : l.dropWhile p = l := by
  cases l with
  | nil => rfl
  | cons a t => simp [List.dropWhile_cons, h a (by simp)]

theorem pyStrip_no_space (s : Str) (h : ∀ c ∈ s, pySpace c = false) :
    pyStrip s = s := by
  unfold pyStrip
  rw [dropWhile_all_false h, dropWhile_all_false, List.reverse_reverse]
  intro c hc
  exact h c (List.mem_reverse.mp hc)

theorem chunkLoop_succ (maxc ov n : Nat) (cs : Str) (i fuel : Nat) :
    chunkLoop maxc ov n cs i (fuel + 1) =
      if i < n then
        (if pyStrip ((cs.drop i).take (min (i + maxc) n - i)) = [] then
          chunkLoop maxc ov n cs (max (min (i + maxc) n - ov) (min (i + maxc) n)) fuel
        else pyStrip ((cs.drop i).take (min (i + maxc) n - i)) ::
          chunkLoop maxc ov n cs (max (min (i + maxc) n - ov) (min (i + maxc) n)) fuel)
      else [] := rfl

theorem c3Text_no_space : ∀ c ∈ c3Text, pySpace c = false := by
  intro c hc
  rcases List.mem_append.mp hc with h | h <;> rw [List.eq_of_mem_replicate h] <;> rfl


/-- C3: at the failing input `"x"*1200 ++ "y"*100`, `chunk_text` (fixed
parameters 1200/120) returns the two *disjoint* windows
`["x"*1200, "y"*100]`: the second chunk does not start with the final 120
characters of the first (no 120-character overlap is produced, because
`i = max(end - overlap, end)` always advances by the full window), and
reassembling the chunks while dropping each later chunk's 120-character
overlap yields `"x"*1200`, not the original stripped text.  This refutes the
claimed overlap/losslessness; the dead `overlap` parameter shows the spec is
the intent and the code a slip. -/
theorem c3_chunking_no_overlap :
    chunk_text c3Text 1200 120 = [List.replicate 1200 'x', List.replicate 100 'y'] ∧
    (List.replicate 100 'y').take 120 ≠ (List.replicate 1200 'x').drop (1200 - 120) ∧
    List.replicate 1200 'x' ++ (List.replicate 100 'y').drop 120 ≠ pyStrip (pySubWsNl c3Text) := by
  have hsub : pySubWsNl c3Text = c3Text := pySubWsNl_eq_self c3Text c3Text_no_space
  have hlen : c3Text.length = 1300 := by
    rw [c3Text, List.length_append, List.length_replicate, List.length_replicate]
  have hx : pyStrip (List.replicate 1200 'x') = List.replicate 1200 'x' :=
    pyStrip_no_space _ (fun c hc => by rw [List.eq_of_mem_replicate hc]; rfl)
  have hy : pyStrip (List.replicate 100 'y') = List.replicate 100 'y' :=
    pyStrip_no_space _ (fun c hc => by rw [List.eq_of_mem_replicate hc]; rfl)
  have hxne : List.replicate 1200 'x' ≠ ([] : Str) := by
    intro h
    have := congrArg List.length h
    rw [List.length_replicate] at this
    exact absurd this (by norm_num)
  have hyne : List.replicate 100 'y' ≠ ([] : Str) := by
    intro h
    have := congrArg List.length h
    rw [List.length_replicate] at this
    exact absurd this (by norm_num)
  have htake : (c3Text.drop 0).take (min (0 + 1200) 1300 - 0) = List.replicate 1200 'x' := by
    rw [List.drop_zero, c3Text, show min (0 + 1200) 1300 - 0 = 1200 from rfl]
    exact List.take_left' (List.length_replicate _ _)
  have hdrop : (c3Text.drop 1200).take (min (1200 + 1200) 1300 - 1200) = List.replicate 100 'y' := by
    rw [c3Text, show min (1200 + 1200) 1300 - 1200 = 100 from rfl,
      List.drop_left' (List.length_replicate _ _)]
    exact List.take_of_length_le (by rw [List.length_replicate])
  refine ⟨?_, ?_, ?_⟩
  · show chunkLoop 1200 120 (pySubWsNl c3Text).length (pySubWsNl c3Text) 0
      ((pySubWsNl c3Text).length + 1) = _
    rw [hsub, hlen]
    rw [chunkLoop_succ, if_pos (by norm_num), htake, hx, if_neg hxne,
      show max (min (0 + 1200) 1300 - 120) (min (0 + 1200) 1300) = 1200 from rfl]
    rw [show (1300 : Nat) = 1299 + 1 from rfl, chunkLoop_succ, if_pos (by norm_num),
      hdrop, hy, if_neg hyne,
      show max (min (1200 + 1200) 1300 - 120) (min (1200 + 1200) 1300) = 1300 from rfl]
    rw [show (1299 : Nat) = 1298 + 1 from rfl, chunkLoop_succ, if_neg (by norm_num)]
  · intro h
    have := congrArg List.length h
    rw [List.length_take, List.length_replicate, List.length_drop,
      List.length_replicate] at this
    exact absurd this (by norm_num)
  · intro h
    have := congrArg List.length h
    rw [hsub, pyStrip_no_space _ c3Text_no_space, hlen, List.length_append,
      List.length_replicate, List.length_drop, List.length_replicate] at this
    exact absurd this (by norm_num)


/-! ### C10 — citation linkification: decimal-marker machinery -/

theorem decDigit_toNat : ∀ d, d < 10 → (decDigit d).toNat = 48 + d := by decide

theorem decRepr_digit_range : ∀ n : Nat, ∀ c ∈ decRepr n, 48 ≤ c.toNat ∧ c.toNat ≤ 57 := by
  intro n
  induction n using Nat.strong_induction_on with
  | _ n ih =>
    intro c hc
    rw [decRepr] at hc
    by_cases h : n < 10
    · rw [dif_pos h] at hc
      simp only [List.mem_singleton] at hc
      subst hc
      rw [decDigit_toNat n h]
      omega
    · rw [dif_neg h] at hc
      rcases List.mem_append.mp hc with h1 | h1
      · exact ih (n / 10) (Nat.div_lt_self (by omega) (by omega)) c h1
      · simp only [List.mem_singleton] at h1
        subst h1
        have hm : n % 10 < 10 := Nat.mod_lt _ (by omega)
        rw [decDigit_toNat (n % 10) hm]
        omega

theorem decVal_decRepr : ∀ n, decVal (decRepr n) = n := by
  intro n
  induction n using Nat.strong_induction_on with
  | _ n ih =>
    rw [decRepr]
    by_cases h : n < 10
    · rw [dif_pos h]
      show 0 * 10 + ((decDigit n).toNat - 48) = n
      rw [decDigit_toNat n h]
      omega
    · rw [dif_neg h]
      unfold decVal
      rw [List.foldl_append]
      show (decVal (decRepr (n / 10))) * 10 + ((decDigit (n % 10)).toNat - 48) = n
      rw [ih (n / 10) (Nat.div_lt_self (by omega) (by omega)),
        decDigit_toNat (n % 10) (Nat.mod_lt _ (by omega))]
      omega

theorem decRepr_inj {m n : Nat} (h : decRepr m = decRepr n) : m = n := by
  have hm := decVal_decRepr m
  rw [h, decVal_decRepr n] at hm
  omega

theorem mem_decRepr_ne {n : Nat} {c : Char} (hc : c ∈ decRepr n) (d : Char)
    (hd : 57 < d.toNat ∨ d.toNat < 48) : c ≠ d := by
  intro he
  have hr := decRepr_digit_range n c hc
  subst he
  omega

theorem marker_tail_no_lbrack (n : Nat) : ∀ c ∈ decRepr n ++ [']'], c ≠ '[' := by
  intro c hc
  rcases List.mem_append.mp hc with h | h
  · exact mem_decRepr_ne h '[' (Or.inl (by decide))
  · simp only [List.mem_singleton] at h
    subst h
    decide

theorem marker_tail_no_lt (n : Nat) : ∀ c ∈ decRepr n ++ [']'], c ≠ '<' := by
  intro c hc
  rcases List.mem_append.mp hc with h | h
  · exact mem_decRepr_ne h '<' (Or.inl (by decide))
  · simp only [List.mem_singleton] at h
    subst h
    decide

theorem citeRepl_no_lbrack (i : Nat) : ∀ c ∈ citeRepl i, c ≠ '[' := by
  intro c hc
  simp only [citeRepl, List.mem_append] at hc
  rcases hc with (((hc | hc) | hc) | hc) | hc
  · intro he
    subst he
    exact absurd hc (by decide)
  · exact mem_decRepr_ne hc '[' (Or.inl (by decide))
  · intro he
    subst he
    exact absurd hc (by decide)
  · exact mem_decRepr_ne hc '[' (Or.inl (by decide))
  · intro he
    subst he
    exact absurd hc (by decide)

theorem citeRepl_head (i : Nat) : ∃ t, citeRepl i = '<' :: t := ⟨_, rfl⟩

theorem citeMark_def (i : Nat) : citeMark i = '[' :: (decRepr i ++ [']']) := rfl

theorem citeMark_ne_nil (i : Nat) : citeMark i ≠ [] := by simp [citeMark]

theorem digits_rbrack_starts : ∀ (a : Str), ∀ (b v : Str),
    (∀ c ∈ a, 48 ≤ c.toNat ∧ c.toNat ≤ 57) → (∀ c ∈ b, 48 ≤ c.toNat ∧ c.toNat ≤ 57) →
    (a ++ [']']) <+: (b ++ (']' :: v)) → a = b := by
  intro a
  induction a with
  | nil =>
    intro b v _ hb h
    cases b with
    | nil => rfl
    | cons d b' =>
      rw [List.nil_append, List.cons_append, List.cons_prefix_cons] at h
      have hd := hb d (by simp)
      have h93 : (']' : Char).toNat = d.toNat := congrArg Char.toNat h.1
      have : (']' : Char).toNat = 93 := by decide
      exfalso
      omega
  | cons c a' ih =>
    intro b v ha hb h
    cases b with
    | nil =>
      rw [List.cons_append, List.nil_append, List.cons_prefix_cons] at h
      have hc := ha c (by simp)
      have h93 : c.toNat = (']' : Char).toNat := congrArg Char.toNat h.1
      have : (']' : Char).toNat = 93 := by decide
      exfalso
      omega
    | cons d b' =>
      rw [List.cons_append, List.cons_append, List.cons_prefix_cons] at h
      rw [h.1]
      exact congrArg (d :: ·) (ih b' v (fun x hx => ha x (by simp [hx]))
        (fun x hx => hb x (by simp [hx])) h.2)

theorem citeMark_not_prefix_of_ne {n i : Nat} (hne : n ≠ i) (t : Str) :
    ¬ citeMark n <+: (citeMark i ++ t) := by
  intro h
  rw [citeMark_def, citeMark_def, List.cons_append, List.cons_prefix_cons] at h
  have h2 := h.2
  rw [List.append_assoc, List.singleton_append] at h2
  exact hne (decRepr_inj (digits_rbrack_starts _ _ _
    (decRepr_digit_range n) (decRepr_digit_range i) h2))

theorem citeMark_not_prefix_cons {n : Nat} {c : Char} {t : Str} (hc : c ≠ '[') :
    (citeMark n).isPrefixOf (c :: t) = false := by
  rw [Bool.eq_false_iff]
  intro h
  rw [List.isPrefixOf_iff_prefix, citeMark_def, List.cons_prefix_cons] at h
  exact hc h.1.symm

theorem occCount_cons (pat : Str) (c : Char) (t : Str) :
    occCount pat (c :: t) = (if pat.isPrefixOf (c :: t) then 1 else 0) + occCount pat t := rfl

theorem occCount_append_no_lbrack {n : Nat} {a : Str} (x : Str) (ha : ∀ c ∈ a, c ≠ '[') :
    occCount (citeMark n) (a ++ x) = occCount (citeMark n) x := by
  induction a with
  | nil => rfl
  | cons c t ih =>
    rw [List.cons_append, occCount_cons, citeMark_not_prefix_cons (ha c (by simp))]
    simp only [Bool.false_eq_true, if_false, Nat.zero_add]
    exact ih (fun d hd => ha d (by simp [hd]))

theorem occCount_mark_prefix_elim {n i : Nat} (hne : n ≠ i) (x : Str) :
    occCount (citeMark n) (citeMark i ++ x) = occCount (citeMark n) x := by
  rw [citeMark_def i, List.cons_append, occCount_cons]
  have h1 : (citeMark n).isPrefixOf ('[' :: ((decRepr i ++ [']']) ++ x)) = false := by
    rw [Bool.eq_false_iff]
    intro h
    rw [List.isPrefixOf_iff_prefix] at h
    refine citeMark_not_prefix_of_ne hne x ?_
    rw [citeMark_def i, List.cons_append]
    exact h
  rw [h1]
  simp only [Bool.false_eq_true, if_false, Nat.zero_add]
  exact occCount_append_no_lbrack x (marker_tail_no_lbrack i)

theorem prefix_of_pyReplace {i : Nat} : ∀ (t w : Str),
    (∀ c ∈ w, c ≠ '<') → w <+: pyReplace (citeMark i) (citeRepl i) t → w <+: t := by
  intro t
  induction t using pyReplace.induct (citeMark i) (citeRepl i) with
  | case1 =>
    intro w _ h
    rw [pyReplace] at h
    exact h
  | case2 c t hp ih =>
    intro w hw h
    rw [pyReplace, dif_pos hp] at h
    cases w with
    | nil => exact List.nil_prefix
    | cons a w' =>
      obtain ⟨tl, htl⟩ := citeRepl_head i
      rw [htl, List.cons_append, List.cons_prefix_cons] at h
      exact absurd h.1 (hw a (by simp))
  | case3 c t hp ih =>
    intro w hw h
    rw [pyReplace, dif_neg hp] at h
    cases w with
    | nil => exact List.nil_prefix
    | cons a w' =>
      rw [List.cons_prefix_cons] at h ⊢
      exact ⟨h.1, ih w' (fun d hd => hw d (by simp [hd])) h.2⟩

theorem pyReplace_copy {i : Nat} (rep : Str) : ∀ (w t : Str), (∀ c ∈ w, c ≠ '[') →
    pyReplace (citeMark i) rep (w ++ t) = w ++ pyReplace (citeMark i) rep t := by
  intro w
  induction w with
  | nil =>
    intro t _
    rfl
  | cons c w' ih =>
    intro t hw
    rw [List.cons_append, pyReplace, dif_neg]
    · rw [ih t (fun d hd => hw d (by simp [hd]))]
      rfl
    · intro h
      have h2 := h.2
      rw [List.isPrefixOf_iff_prefix, citeMark_def, List.cons_prefix_cons] at h2
      exact hw c (by simp) h2.1.symm

theorem occCount_pyReplace_ne {n i : Nat} (hne : n ≠ i) : ∀ s : Str,
    occCount (citeMark n) (pyReplace (citeMark i) (citeRepl i) s) =
      occCount (citeMark n) s := by
  intro s
  induction s using pyReplace.induct (citeMark i) (citeRepl i) with
  | case1 =>
    rw [pyReplace]
  | case2 c t hp ih =>
    rw [pyReplace, dif_pos hp,
      occCount_append_no_lbrack _ (citeRepl_no_lbrack i), ih]
    have hsplit : citeMark i ++ (c :: t).drop (citeMark i).length = c :: t :=
      List.prefix_iff_eq_append.mp (List.isPrefixOf_iff_prefix.mp hp.2)
    conv_rhs => rw [← hsplit]
    rw [occCount_mark_prefix_elim hne]
  | case3 c t hp ih =>
    rw [pyReplace, dif_neg hp, occCount_cons, occCount_cons, ih]
    congr 1
    by_cases hc : c = '['
    · subst hc
      have hiff : (citeMark n).isPrefixOf ('[' :: pyReplace (citeMark i) (citeRepl i) t) = true ↔
          (citeMark n).isPrefixOf ('[' :: t) = true := by
        rw [List.isPrefixOf_iff_prefix, List.isPrefixOf_iff_prefix,
          citeMark_def, List.cons_prefix_cons, List.cons_prefix_cons]
        constructor
        · intro h
          exact ⟨h.1, prefix_of_pyReplace t _ (marker_tail_no_lt n) h.2⟩
        · intro h
          refine ⟨h.1, ?_⟩
          have hs : (decRepr n ++ [']']) ++
              t.drop (decRepr n ++ [']']).length = t :=
            List.prefix_iff_eq_append.mp h.2
          conv_rhs => rw [← hs]
          rw [pyReplace_copy _ _ _ (marker_tail_no_lbrack n)]
          exact List.prefix_append _ _
      cases hb : (citeMark n).isPrefixOf ('[' :: t) with
      | false =>
        have hl : (citeMark n).isPrefixOf
            ('[' :: pyReplace (citeMark i) (citeRepl i) t) = false := by
          rw [Bool.eq_false_iff]
          intro h2
          exact absurd (hiff.mp h2) (by rw [hb]; exact Bool.false_ne_true)
        rw [hl]
      | true =>
        rw [hiff.mpr hb]
    · rw [citeMark_not_prefix_cons hc, citeMark_not_prefix_cons hc]

theorem occCount_pyReplace_self (i : Nat) : ∀ s : Str,
    occCount (citeMark i) (pyReplace (citeMark i) (citeRepl i) s) = 0 := by
  intro s
  induction s using pyReplace.induct (citeMark i) (citeRepl i) with
  | case1 =>
    rw [pyReplace]
    rfl
  | case2 c t hp ih =>
    rw [pyReplace, dif_pos hp,
      occCount_append_no_lbrack _ (citeRepl_no_lbrack i)]
    exact ih
  | case3 c t hp ih =>
    rw [pyReplace, dif_neg hp, occCount_cons]
    have hnp : ¬ citeMark i <+: (c :: t) := fun h =>
      hp ⟨citeMark_ne_nil i, List.isPrefixOf_iff_prefix.mpr h⟩
    have hfalse : (citeMark i).isPrefixOf
        (c :: pyReplace (citeMark i) (citeRepl i) t) = false := by
      rw [Bool.eq_false_iff]
      intro h
      rw [List.isPrefixOf_iff_prefix, citeMark_def, List.cons_prefix_cons] at h
      refine hnp ?_
      rw [citeMark_def, ← h.1, List.cons_prefix_cons]
      exact ⟨rfl, prefix_of_pyReplace t _ (marker_tail_no_lt i) h.2⟩
    rw [hfalse]
    simp only [Bool.false_eq_true, if_false, Nat.zero_add]
    exact ih

theorem pyReplace_exact (pat rep : Str) (hne : pat ≠ []) :
    pyReplace pat rep pat = rep := by
  cases pat with
  | nil => exact absurd rfl hne
  | cons c t =>
    rw [pyReplace, dif_pos ⟨by simp, List.isPrefixOf_iff_prefix.mpr (List.prefix_refl _)⟩,
      List.drop_length, pyReplace, List.append_nil]

theorem pyReplace_no_occ {pat rep : Str} : ∀ s, occCount pat s = 0 →
    pyReplace pat rep s = s := by
  intro s
  induction s with
  | nil =>
    intro _
    rw [pyReplace]
  | cons c t ih =>
    intro h0
    rw [occCount_cons] at h0
    have hpre : pat.isPrefixOf (c :: t) = false := by
      cases hp : pat.isPrefixOf (c :: t)
      · rfl
      · rw [hp] at h0
        simp at h0
    have ht : occCount pat t = 0 := by
      rw [hpre] at h0
      simpa using h0
    rw [pyReplace, dif_neg (fun hh => by rw [hpre] at hh; exact absurd hh.2 (by simp)),
      ih ht]

/-- The step function folded by `linkify_citations`. -/
theorem linkify_step_eq (html : Str) (cits : List Cit) (hne : ¬ cits.isEmpty = true) :
    linkify_citations html cits = (List.range cits.length).foldl
      (fun out i => pyReplace (citeMark (i + 1)) (citeRepl (i + 1)) out) html := by
  rw [linkify_citations, if_neg hne]

theorem foldl_linkify_preserve {n : Nat} : ∀ (l : List Nat) (html : Str),
    (∀ j ∈ l, j + 1 ≠ n) →
    occCount (citeMark n) (l.foldl
      (fun out i => pyReplace (citeMark (i + 1)) (citeRepl (i + 1)) out) html) =
      occCount (citeMark n) html := by
  intro l
  induction l with
  | nil =>
    intro html _
    rfl
  | cons j l' ih =>
    intro html h
    rw [List.foldl_cons, ih _ (fun j' hj' => h j' (by simp [hj']))]
    exact occCount_pyReplace_ne (fun he => h j (by simp) he.symm) html

theorem foldl_linkify_noop : ∀ (l : List Nat) (html : Str),
    (∀ j ∈ l, occCount (citeMark (j + 1)) html = 0) →
    l.foldl (fun out i => pyReplace (citeMark (i + 1)) (citeRepl (i + 1)) out) html
      = html := by
  intro l
  induction l with
  | nil =>
    intro html _
    rfl
  | cons j l' ih =>
    intro html h
    rw [List.foldl_cons, pyReplace_no_occ html (h j (by simp)),
      ih html (fun j' hj' => h j' (by simp [hj']))]

theorem foldl_linkify_zero {i : Nat} (hi : 1 ≤ i) : ∀ (l : List Nat) (html : Str),
    (i - 1) ∈ l →
    occCount (citeMark i) (l.foldl
      (fun out i' => pyReplace (citeMark (i' + 1)) (citeRepl (i' + 1)) out) html) = 0 := by
  intro l
  induction l with
  | nil =>
    intro html h
    simp at h
  | cons j l' ih =>
    intro html hmem
    rw [List.foldl_cons]
    by_cases hj : (i - 1) ∈ l'
    · exact ih _ hj
    · have hji : j = i - 1 := by
        rcases List.mem_cons.mp hmem with h | h
        · exact h.symm
        · exact absurd h hj
      have hpres : ∀ j' ∈ l', j' + 1 ≠ i := by
        intro j' hj' he
        have hx : j' = i - 1 := by omega
        exact hj (hx ▸ hj')
      rw [foldl_linkify_preserve l' _ hpres, hji, show i - 1 + 1 = i from by omega]
      exact occCount_pyReplace_self i html

/-- C10: `linkify_citations` with `N` citations (i) is the identity when
`N = 0`; (ii) preserves the number of occurrences of every literal marker
`[n]` with `n > N`; (iii) eliminates every occurrence of the markers `[1]`
through `[N]` (they are rewritten into the `<sup class="cite">` anchors
`#src-i` inserted by `citeRepl`); (iv) rewrites *only* those markers: an
input containing none of `[1]`…`[N]` is returned unchanged; and (v) the
marker `[N]` alone is rewritten into exactly the superscript anchor
referencing `#src-N`. -/
theorem c10_linkify_markers (html : Str) (cits : List Cit) (n : Nat)
    (hn : cits.length < n) :
    (cits = [] → linkify_citations html cits = html) ∧
    occCount (citeMark n) (linkify_citations html cits) = occCount (citeMark n) html ∧
    (((List.range cits.length).map (fun j => j + 1)).all
      (fun i => occCount (citeMark i) (linkify_citations html cits) == 0)) = true ∧
    ((((List.range cits.length).map (fun j => j + 1)).all
        (fun i => occCount (citeMark i) html == 0)) = true →
      linkify_citations html cits = html) ∧
    (1 ≤ cits.length →
      linkify_citations (citeMark cits.length) cits = citeRepl cits.length) := by
  refine ⟨?_, ?_, ?_, ?_, ?_⟩
  · intro h
    subst h
    rfl
  · by_cases hc : cits.isEmpty
    · rw [linkify_citations, if_pos hc]
    · rw [linkify_step_eq html cits hc]
      exact foldl_linkify_preserve _ html (fun j hj => by
        have := List.mem_range.mp hj
        omega)
  · rw [List.all_eq_true]
    intro i hi
    rcases List.mem_map.mp hi with ⟨j, hj, hji⟩
    have hjr := List.mem_range.mp hj
    have hne : ¬ cits.isEmpty = true := by
      cases cits
      · simp at hj
      · simp
    rw [linkify_step_eq html cits hne, beq_iff_eq]
    refine foldl_linkify_zero (by omega) _ html ?_
    rw [← hji]
    simpa using hj
  · intro hall
    by_cases hc : cits.isEmpty
    · rw [linkify_citations, if_pos hc]
    · rw [linkify_step_eq html cits hc]
      refine foldl_linkify_noop _ html ?_
      intro j hj
      rw [List.all_eq_true] at hall
      have := hall (j + 1) (List.mem_map.mpr ⟨j, hj, rfl⟩)
      exact beq_iff_eq.mp this
  · intro hN
    obtain ⟨m, hm⟩ : ∃ m, cits.length = m + 1 := ⟨cits.length - 1, by omega⟩
    have hc : ¬ cits.isEmpty = true := by
      cases cits
      · simp at hN
      · simp
    rw [linkify_step_eq _ cits hc, hm, List.range_succ, List.foldl_append,
      List.foldl_cons, List.foldl_nil]
    have hnoocc : ∀ j ∈ List.range m,
        occCount (citeMark (j + 1)) (citeMark (m + 1)) = 0 := by
      intro j hj
      have hjr := List.mem_range.mp hj
      have h := occCount_mark_prefix_elim (n := j + 1) (i := m + 1)
        (by omega) ([] : Str)
      rw [List.append_nil] at h
      rw [h]
      rfl
    rw [foldl_linkify_noop _ _ hnoocc]
    exact pyReplace_exact _ _ (citeMark_ne_nil _)


/-! ### C4 — insertion-sort correctness for the stable index sort -/

theorem insOrd_perm (lt : α → α → Bool) (x : α) (l : List α) :
    List.Perm (insOrd lt x l) (x :: l) := by
  induction l with
  | nil => exact List.Perm.refl _
  | cons y ys ih =>
    rw [insOrd]
    by_cases h : lt x y
    · rw [if_pos h]
    · rw [if_neg h]
      exact (ih.cons y).trans (List.Perm.swap x y ys)

theorem isortBy_perm (lt : α → α → Bool) (l : List α) : List.Perm (isortBy lt l) l := by
  induction l with
  | nil => exact List.Perm.refl _
  | cons x l' ih =>
    show List.Perm (insOrd lt x (isortBy lt l')) (x :: l')
    exact (insOrd_perm lt x (isortBy lt l')).trans (ih.cons x)

theorem insOrd_sorted {lt : α → α → Bool}
    (htrans : ∀ a b c, lt a b = true → lt b c = true → lt a c = true)
    (htotal : ∀ a b, a ≠ b → lt a b = true ∨ lt b a = true)
    {x : α} {l : List α} (hx : x ∉ l)
    (hs : l.Pairwise (fun a b => lt a b = true)) :
    (insOrd lt x l).Pairwise (fun a b => lt a b = true) := by
  induction l with
  | nil => simp [insOrd]
  | cons y ys ih =>
    rw [insOrd]
    by_cases h : lt x y
    · rw [if_pos h]
      refine List.Pairwise.cons ?_ hs
      intro z hz
      rcases List.mem_cons.mp hz with rfl | hz'
      · exact h
      · exact htrans x y z h (List.rel_of_pairwise_cons hs hz')
    · rw [if_neg h]
      refine List.Pairwise.cons ?_ (ih (fun hc => hx (by simp [hc])) hs.of_cons)
      intro z hz
      have hz2 := (insOrd_perm lt x ys).mem_iff.mp hz
      rcases List.mem_cons.mp hz2 with rfl | hz'
      · rcases htotal y z (fun he => hx (by simp [he.symm])) with h1 | h1
        · exact h1
        · exact absurd h1 h
      · exact List.rel_of_pairwise_cons hs hz'

theorem isortBy_sorted {lt : α → α → Bool}
    (htrans : ∀ a b c, lt a b = true → lt b c = true → lt a c = true)
    (htotal : ∀ a b, a ≠ b → lt a b = true ∨ lt b a = true) :
    ∀ l : List α, l.Nodup → (isortBy lt l).Pairwise (fun a b => lt a b = true) := by
  intro l
  induction l with
  | nil =>
    intro _
    simp [isortBy]
  | cons x l' ih =>
    intro hnd
    show (insOrd lt x (isortBy lt l')).Pairwise _
    refine insOrd_sorted htrans htotal ?_ (ih hnd.of_cons)
    intro hc
    exact (List.nodup_cons.mp hnd).1 ((isortBy_perm lt l').mem_iff.mp hc)

theorem descLt_trans (key : Nat → ℚ) : ∀ a b c,
    descLt key a b = true → descLt key b c = true → descLt key a c = true := by
  intro a b c hab hbc
  rw [descLt, decide_eq_true_iff] at hab hbc ⊢
  rcases hab with h1 | ⟨h1, h1'⟩ <;> rcases hbc with h2 | ⟨h2, h2'⟩
  · exact Or.inl (h2.trans h1)
  · exact Or.inl (h2 ▸ h1)
  · exact Or.inl (h1 ▸ h2)
  · exact Or.inr ⟨h1.trans h2, h1'.trans h2'⟩

theorem descLt_total (key : Nat → ℚ) : ∀ a b, a ≠ b →
    descLt key a b = true ∨ descLt key b a = true := by
  intro a b hne
  rw [descLt, descLt, decide_eq_true_iff, decide_eq_true_iff]
  rcases lt_trichotomy (key a) (key b) with h | h | h
  · exact Or.inr (Or.inl h)
  · rcases Nat.lt_or_ge a b with h2 | h2
    · exact Or.inl (Or.inr ⟨h, h2⟩)
    · exact Or.inr (Or.inr ⟨h.symm, by omega⟩)
  · exact Or.inl (Or.inl h)

theorem pySortIdxDesc_perm (key : Nat → ℚ) (n : Nat) :
    List.Perm (pySortIdxDesc key n) (List.range n) := isortBy_perm _ _

theorem pySortIdxDesc_sorted (key : Nat → ℚ) (n : Nat) :
    (pySortIdxDesc key n).Pairwise (fun a b => descLt key a b = true) :=
  isortBy_sorted (descLt_trans key) (descLt_total key) _ (List.nodup_range _)

theorem pySortIdxDesc_length (key : Nat → ℚ) (n : Nat) :
    (pySortIdxDesc key n).length = n := by
  rw [(pySortIdxDesc_perm key n).length_eq, List.length_range]

/-- C4: when the rerank capability raises on every call and the corpus is
non-empty, `search_docs` returns exactly `min k (number of chunks)` results,
namely the image of an index list `idx` that (i) lists the top lexical
candidates, (ii) is ordered by strictly descending BM25 score with ties
broken by ascending original corpus index (`descLt`, CPython's stable
descending sort order), and (iii) beats every corpus index it omits. -/
theorem c4_search_rerank_fallback (allDocs : List Doc)
    (bm25 : List (List Str) → List Str → List ℚ)
    (rerank : Str → List Str → Nat → Except Unit (List RerankResult))
    (query : Str) (k : Nat) (scores : List ℚ)
    (hd : allDocs ≠ [])
    (hsc : scores = bm25 ((allDocs.map (fun d => d.text_chunk)).map tok) (tok query))
    (hlen : scores.length = allDocs.length)
    (herr : ∀ q ds n, rerank q ds n = .error ()) :
    (search_docs allDocs bm25 rerank query k).length = min k allDocs.length ∧
    ∃ idx : List Nat,
      search_docs allDocs bm25 rerank query k =
        idx.map (fun i => allDocs.getD i dfltDoc) ∧
      idx.length = min k allDocs.length ∧
      idx.Pairwise (fun i j => descLt (fun i => scores.getD i 0) i j = true) ∧
      (∀ i ∈ idx, i < allDocs.length) ∧
      (∀ i ∈ idx, ∀ j, j < allDocs.length → j ∉ idx →
        descLt (fun i => scores.getD i 0) i j = true) := by
  have hde : allDocs.isEmpty = false := by
    cases allDocs with
    | nil => exact absurd rfl hd
    | cons a b => rfl
  have hres : search_docs allDocs bm25 rerank query k =
      (if (((pySortIdxDesc (fun i => scores.getD i 0) scores.length).take
            (min (max (k * 5) k) scores.length)).map
              (fun i => allDocs.getD i dfltDoc)).isEmpty = true then
          allDocs.take (max (k * 5) k)
        else ((pySortIdxDesc (fun i => scores.getD i 0) scores.length).take
            (min (max (k * 5) k) scores.length)).map
              (fun i => allDocs.getD i dfltDoc)).take k := by
    rw [search_docs]
    simp only [hde, Bool.false_eq_true, if_false, ← hsc, herr]
  set key : Nat → ℚ := fun i => scores.getD i 0 with hkey
  set S : List Nat := pySortIdxDesc key scores.length with hS
  have hSlen : S.length = scores.length := pySortIdxDesc_length key scores.length
  have hSperm : List.Perm S (List.range scores.length) := pySortIdxDesc_perm key scores.length
  have hSsort : S.Pairwise (fun a b => descLt key a b = true) :=
    pySortIdxDesc_sorted key scores.length
  rcases Nat.eq_zero_or_pos k with hk0 | hkpos
  · subst hk0
    rw [hres, List.take_zero]
    refine ⟨by simp, [], by simp, by simp, by simp, by simp, by simp⟩
  · have hnpos : 0 < allDocs.length := List.length_pos.mpr hd
    have hMk : k ≤ max (k * 5) k := Nat.le_max_right _ _
    have htlen : ((S.take (min (max (k * 5) k) scores.length)).map
        (fun i => allDocs.getD i dfltDoc)).length = min (max (k * 5) k) scores.length := by
      rw [List.length_map, List.length_take, hSlen]
      omega
    have htne : (((S.take (min (max (k * 5) k) scores.length)).map
        (fun i => allDocs.getD i dfltDoc)).isEmpty) = false := by
      rcases he : ((S.take (min (max (k * 5) k) scores.length)).map
          (fun i => allDocs.getD i dfltDoc)) with _ | ⟨x, xs⟩
      · rw [he] at htlen
        simp only [List.length_nil] at htlen
        omega
      · rfl
    rw [hres, htne]
    simp only [Bool.false_eq_true, if_false]
    rw [← List.map_take, List.take_take]
    set kk := min k (min (max (k * 5) k) scores.length) with hkk
    have hkkval : kk = min k allDocs.length := by
      rw [hkk, ← hlen]
      omega
    refine ⟨?_, S.take kk, rfl, ?_, ?_, ?_, ?_⟩
    · rw [List.length_map, List.length_take, hSlen, ← hlen]
      omega
    · rw [List.length_take, hSlen, ← hlen]
      omega
    · exact hSsort.sublist (List.take_sublist kk S)
    · intro i hi
      have : i ∈ S := List.mem_of_mem_take hi
      have := List.mem_range.mp (hSperm.mem_iff.mp this)
      omega
    · intro i hi j hj hnj
      have hjS : j ∈ S := hSperm.mem_iff.mpr (List.mem_range.mpr (by omega))
      have hsplit : S.take kk ++ S.drop kk = S := List.take_append_drop kk S
      have hjd : j ∈ S.drop kk := by
        rcases List.mem_append.mp (by rw [hsplit]; exact hjS :
            j ∈ S.take kk ++ S.drop kk) with h | h
        · exact absurd h hnj
        · exact h
      have hpa := (List.pairwise_append.mp (by rw [hsplit]; exact hSsort :
        (S.take kk ++ S.drop kk).Pairwise (fun a b => descLt key a b = true)))
      exact hpa.2.2 i hi j hjd


/-- Witness for C4 at a concrete two-chunk corpus, `k = 6`, and an
always-raising rerank oracle. -/
theorem c4_search_rerank_fallback_witness :
    c4Docs ≠ [] ∧
    ([2, 1] : List ℚ) = c4Bm25 ((c4Docs.map (fun d => d.text_chunk)).map tok) (tok ("q".data)) ∧
    ([2, 1] : List ℚ).length = c4Docs.length ∧
    (∀ q ds n, failRerank q ds n = .error ()) ∧
    ((search_docs c4Docs c4Bm25 failRerank ("q".data) 6).length = min 6 c4Docs.length ∧
     ∃ idx : List Nat,
       search_docs c4Docs c4Bm25 failRerank ("q".data) 6 =
         idx.map (fun i => c4Docs.getD i dfltDoc) ∧
       idx.length = min 6 c4Docs.length ∧
       idx.Pairwise (fun i j => descLt (fun i => ([2, 1] : List ℚ).getD i 0) i j = true) ∧
       (∀ i ∈ idx, i < c4Docs.length) ∧
       (∀ i ∈ idx, ∀ j, j < c4Docs.length → j ∉ idx →
         descLt (fun i => ([2, 1] : List ℚ).getD i 0) i j = true)) :=
  ⟨by decide, rfl, rfl, fun _ _ _ => rfl,
   c4_search_rerank_fallback c4Docs c4Bm25 failRerank ("q".data) 6 [2, 1]
     (by decide) rfl rfl (fun _ _ _ => rfl)⟩

/-- Witness for C10 at the concrete input `"See [1] and [3]"` with one
citation and `n = 3`. -/
theorem c10_linkify_markers_witness :
    [c10Cit].length < 3 ∧
    (([c10Cit] : List Cit) = [] → linkify_citations c10Html [c10Cit] = c10Html) ∧
    occCount (citeMark 3) (linkify_citations c10Html [c10Cit]) =
      occCount (citeMark 3) c10Html ∧
    (((List.range [c10Cit].length).map (fun j => j + 1)).all
      (fun i => occCount (citeMark i) (linkify_citations c10Html [c10Cit]) == 0)) = true ∧
    ((((List.range [c10Cit].length).map (fun j => j + 1)).all
        (fun i => occCount (citeMark i) c10Html == 0)) = true →
      linkify_citations c10Html [c10Cit] = c10Html) ∧
    (1 ≤ [c10Cit].length →
      linkify_citations (citeMark [c10Cit].length) [c10Cit] = citeRepl [c10Cit].length) :=
  ⟨by decide, c10_linkify_markers c10Html [c10Cit] 3 (by decide)⟩


/-! ### Association-list and compose-dispatch helpers -/

theorem lookup_cons (k k' : Str) (v' : β) (t : List (Str × β)) :
    ((k', v') :: t).lookup k = if k = k' then some v' else t.lookup k := by
  by_cases h : k = k'
  · simp [List.lookup, beq_iff_eq.mpr h, h]
  · simp [List.lookup, beq_eq_false_iff_ne.mpr h, h]

theorem dset_lookup_self (k : Str) (v : β) : ∀ l : List (Str × β),
    (dset k v l).lookup k = some v := by
  intro l
  induction l with
  | nil => simp [dset, lookup_cons]
  | cons kv t ih =>
    obtain ⟨k', v'⟩ := kv
    rw [dset]
    by_cases h : k' = k
    · rw [if_pos h, lookup_cons, if_pos rfl]
    · rw [if_neg h, lookup_cons, if_neg (fun he => h he.symm)]
      exact ih

theorem lookup_none_of_not_mem_keys {k : Str} : ∀ {l : List (Str × β)},
    k ∉ l.map Prod.fst → l.lookup k = none := by
  intro l
  induction l with
  | nil => intro _; rfl
  | cons kv t ih =>
    obtain ⟨k', v'⟩ := kv
    intro h
    have h1 : k ≠ k' := fun he => h (he ▸ (List.map_cons _ _ _ ▸ List.mem_cons_self _ _))
    rw [lookup_cons, if_neg h1]
    exact ih (fun hm => h (List.map_cons _ _ _ ▸ List.mem_cons_of_mem _ hm))

theorem lookup_filter_dset {p : Str × β → Bool} {k : Str} {v : β}
    (hp : p (k, v) = true) : ∀ l : List (Str × β),
    ((dset k v l).filter p).lookup k = some v := by
  intro l
  induction l with
  | nil => simp [dset, List.filter, hp, lookup_cons]
  | cons kv t ih =>
    obtain ⟨k', v'⟩ := kv
    rw [dset]
    by_cases h : k' = k
    · rw [if_pos h, List.filter_cons, hp]
      simp only [if_true]
      rw [lookup_cons, if_pos rfl]
    · rw [if_neg h, List.filter_cons]
      cases hk : p (k', v') with
      | false => simpa using ih
      | true =>
        simp only [if_true]
        rw [lookup_cons, if_neg (fun he => h he.symm)]
        exact ih

theorem lookup_filter_none_of_dropped {p : Str × β → Bool} {k : Str} {v : β} :
    ∀ {l : List (Str × β)}, (l.map Prod.fst).Nodup → l.lookup k = some v →
    p (k, v) = false → (l.filter p).lookup k = none := by
  intro l
  induction l with
  | nil =>
    intro _ h _
    simp [List.lookup] at h
  | cons kv t ih =>
    obtain ⟨k', v'⟩ := kv
    intro hnd hlk hp
    rw [lookup_cons] at hlk
    by_cases h : k = k'
    · rw [if_pos h] at hlk
      simp only [Option.some.injEq] at hlk
      subst hlk
      subst h
      rw [List.filter_cons, hp]
      simp only [Bool.false_eq_true, if_false]
      have hnot : k ∉ t.map Prod.fst := by
        rw [List.map_cons] at hnd
        exact (List.nodup_cons.mp hnd).1
      refine lookup_none_of_not_mem_keys ?_
      intro hm
      rcases List.mem_map.mp hm with ⟨x, hx, hxk⟩
      exact hnot (List.mem_map.mpr ⟨x, (List.filter_sublist t).subset hx, hxk⟩)
    · rw [if_neg h] at hlk
      have hnd2 : (t.map Prod.fst).Nodup := by
        rw [List.map_cons] at hnd
        exact (List.nodup_cons.mp hnd).2
      rw [List.filter_cons]
      cases hkp : p (k', v') with
      | false => exact ih hnd2 hlk hp
      | true =>
        simp only [if_true]
        rw [lookup_cons, if_neg h]
        exact ih hnd2 hlk hp

theorem lookup_setPageHtml (pid : Str) (h : Str) : ∀ ps : List (Str × Page),
    (setPageHtml pid h ps).lookup pid =
      (ps.lookup pid).map (fun p => { p with html := h }) := by
  intro ps
  induction ps with
  | nil => rfl
  | cons kv t ih =>
    obtain ⟨k', v'⟩ := kv
    rw [setPageHtml, List.map_cons]
    by_cases hk : k' = pid
    · rw [if_pos hk, lookup_cons, lookup_cons, if_pos hk.symm, if_pos hk.symm]
      rfl
    · rw [if_neg hk, lookup_cons, lookup_cons,
        if_neg (fun he => hk he.symm), if_neg (fun he => hk he.symm)]
      exact ih

theorem finishPage_fst (env : Env) (st : St) (ck tr title safe bc pr base : Str) :
    (finishPage env st ck tr title safe bc pr base).1 =
      ⟨env.ids 0, title, tr⟩ := rfl

theorem finishPage_answers (env : Env) (st : St) (ck tr title safe bc pr base : Str) :
    (finishPage env st ck tr title safe bc pr base).2.answers =
      dset ck ⟨env.ids 0, env.now⟩ st.answers := rfl

theorem finishPage_pages_lookup (env : Env) (st : St) (ck tr title safe bc pr base : Str) :
    ((finishPage env st ck tr title safe bc pr base).2.pages).lookup (env.ids 0) =
      some ⟨title,
        build_fullpage_html env.slug title safe bc pr tr (env.ids 0) base,
        env.now⟩ := by
  show (setPageHtml (env.ids 0) _ (dset (env.ids 0) _ (cleanup_pages env.now st.pages))).lookup
    (env.ids 0) = _
  rw [lookup_setPageHtml, dset_lookup_self]
  rfl

theorem compose_answer_page_hit (env : Env) (st : St) (q layout : Str) (inc : Bool)
    (bc pr base : Str) (pid : Str) (p : Page)
    (h : memoHit (cleanup_answers env.now st.answers) st.pages
      (cache_key env.sha q layout inc bc pr) = some (pid, p)) :
    compose_answer_page env st q layout inc bc pr base =
      (⟨pid, p.title, trace_id_for env.sha q⟩,
       { pages := st.pages, answers := cleanup_answers env.now st.answers }) := by
  rw [compose_answer_page]
  simp only [h]

theorem compose_answer_page_miss (env : Env) (st : St) (q layout : Str) (inc : Bool)
    (bc pr base : Str)
    (h : memoHit (cleanup_answers env.now st.answers) st.pages
      (cache_key env.sha q layout inc bc pr) = none) :
    compose_answer_page env st q layout inc bc pr base =
      (if (search_docs env.allDocs env.bm25 env.rerank q FINAL_DOCS).isEmpty = true then
        composeFallback env { pages := st.pages, answers := cleanup_answers env.now st.answers }
          (cache_key env.sha q layout inc bc pr) (trace_id_for env.sha q)
          noSourcesPlan bc pr base
      else if RERANK_THRESHOLD ≠ 0 ∧
          topScoreOf env q (search_docs env.allDocs env.bm25 env.rerank q FINAL_DOCS) <
            RERANK_THRESHOLD then
        composeFallback env { pages := st.pages, answers := cleanup_answers env.now st.answers }
          (cache_key env.sha q layout inc bc pr) (trace_id_for env.sha q)
          lowConfPlan bc pr base
      else
        composeSynth env { pages := st.pages, answers := cleanup_answers env.now st.answers }
          (cache_key env.sha q layout inc bc pr) (trace_id_for env.sha q)
          q layout inc bc pr base
          (search_docs env.allDocs env.bm25 env.rerank q FINAL_DOCS)) := by
  rw [compose_answer_page]
  simp only [h]

theorem compose_miss_post (env : Env) (st : St) (q layout : Str) (inc : Bool)
    (bc pr base : Str)
    (h : memoHit (cleanup_answers env.now st.answers) st.pages
      (cache_key env.sha q layout inc bc pr) = none) :
    (compose_answer_page env st q layout inc bc pr base).1.id = env.ids 0 ∧
    (compose_answer_page env st q layout inc bc pr base).2.answers =
      dset (cache_key env.sha q layout inc bc pr) ⟨env.ids 0, env.now⟩
        (cleanup_answers env.now st.answers) ∧
    ∃ pg : Page,
      ((compose_answer_page env st q layout inc bc pr base).2.pages).lookup (env.ids 0) =
        some pg ∧
      pg.title = (compose_answer_page env st q layout inc bc pr base).1.title := by
  rw [compose_answer_page_miss env st q layout inc bc pr base h]
  by_cases h1 : (search_docs env.allDocs env.bm25 env.rerank q FINAL_DOCS).isEmpty = true
  · rw [if_pos h1]
    rw [composeFallback]
    refine ⟨rfl, finishPage_answers _ _ _ _ _ _ _ _ _, ⟨_, finishPage_pages_lookup _ _ _ _ _ _ _ _ _, rfl⟩⟩
  · rw [if_neg h1]
    by_cases h2 : RERANK_THRESHOLD ≠ 0 ∧
        topScoreOf env q (search_docs env.allDocs env.bm25 env.rerank q FINAL_DOCS) <
          RERANK_THRESHOLD
    · rw [if_pos h2, composeFallback]
      refine ⟨rfl, finishPage_answers _ _ _ _ _ _ _ _ _, ⟨_, finishPage_pages_lookup _ _ _ _ _ _ _ _ _, rfl⟩⟩
    · rw [if_neg h2, composeSynth]
      refine ⟨rfl, finishPage_answers _ _ _ _ _ _ _ _ _, ⟨_, finishPage_pages_lookup _ _ _ _ _ _ _ _ _, rfl⟩⟩


/-! ### C2 — content-cache behaviour on a failed re-fetch -/

/-- C2 (counterexample): a read of the posts partition at TTL expiry
(`now - ts = 300 = TTL`) with a previous snapshot present and a re-fetch that
fails outright returns the empty result, not the previous snapshot, and
overwrites the partition's snapshot with that empty result. -/
theorem c2_counterexample :
    (fetch_wp_posts failNet ⟨0, [c2Doc]⟩ 300 50 20).2 ≠ [c2Doc] ∧
    (fetch_wp_posts failNet ⟨0, [c2Doc]⟩ 300 50 20).1.docs = [] := by
  have h : fetch_wp_posts failNet ⟨0, [c2Doc]⟩ 300 50 20 = (⟨300, []⟩, []) := by
    rw [fetch_wp_posts, if_neg (by norm_num [TTL]),
      fetchDocsLoop_error_first failNet 50 rfl 20]
  rw [h]
  exact ⟨by decide, rfl⟩

/-- C2 (amended): for every cache read at or after TTL expiry (or with an
empty snapshot) whose re-fetch fails outright on the first page, each
partition returns an empty result — never surfacing the failure as an error
(the return type carries no error case) — and *replaces* the stored snapshot
with that empty result; the previous snapshot is discarded, not served. -/
theorem c2_refetch_failure_replaces_snapshot
    (netP netG : Nat → Except Unit (WPResp WPItem))
    (netM : Nat → Except Unit (WPResp WPMedia))
    (cp cg : DocsCache) (cm : MediaCache) (now : ℚ)
    (perP perG perM maxP maxG maxM : Nat)
    (hcp : ¬ (¬ cp.docs.isEmpty ∧ now - cp.ts < TTL))
    (hcg : ¬ (¬ cg.docs.isEmpty ∧ now - cg.ts < TTL))
    (hcm : ¬ (¬ cm.imgs.isEmpty ∧ now - cm.ts < TTL))
    (hp : netP 1 = .error ()) (hg : netG 1 = .error ()) (hm : netM 1 = .error ()) :
    fetch_wp_posts netP cp now perP maxP = (⟨now, []⟩, []) ∧
    fetch_wp_pages netG cg now perG maxG = (⟨now, []⟩, []) ∧
    fetch_wp_media netM cm now perM maxM = (⟨now, []⟩, []) := by
  refine ⟨?_, ?_, ?_⟩
  · rw [fetch_wp_posts, if_neg hcp, fetchDocsLoop_error_first netP perP hp maxP]
  · rw [fetch_wp_pages, if_neg hcg, fetchDocsLoop_error_first netG perG hg maxG]
  · rw [fetch_wp_media, if_neg hcm, fetchMediaLoop_error_first netM perM hm maxM]

/-- Witness for C2's amended theorem at a concrete expired snapshot. -/
theorem c2_refetch_failure_witness :
    fetch_wp_posts failNet ⟨0, [c2Doc]⟩ 300 50 20 = (⟨300, []⟩, []) ∧
    fetch_wp_pages failNet ⟨0, [c2Doc]⟩ 300 50 10 = (⟨300, []⟩, []) ∧
    fetch_wp_media failNetM ⟨0, []⟩ 300 80 10 = (⟨300, []⟩, []) := by
  have h := c2_refetch_failure_replaces_snapshot failNet failNet failNetM
    ⟨0, [c2Doc]⟩ ⟨0, [c2Doc]⟩ ⟨0, []⟩ 300 50 50 80 20 10 10
    (by norm_num [TTL]) (by norm_num [TTL]) (by simp) rfl rfl rfl
  exact h

/-! ### Further shared helpers -/

theorem memoHit_some (a : List (Str × CEnt)) (ps : List (Str × Page)) (ck : Str)
    (ent : CEnt) (p : Page)
    (h1 : a.lookup ck = some ent) (h2 : ps.lookup ent.page_id = some p) :
    memoHit a ps ck = some (ent.page_id, p) := by
  rw [memoHit]
  simp only [h1, h2]

theorem memoHit_none_of_lookup_none (a : List (Str × CEnt)) (ps : List (Str × Page))
    (ck : Str) (h1 : a.lookup ck = none) : memoHit a ps ck = none := by
  rw [memoHit]
  simp only [h1]

theorem substrOf_self (p : Str) : substrOf p p := ⟨[], [], by simp⟩

theorem substrOf_appL (p t s : Str) (h : substrOf p s) : substrOf p (t ++ s) := by
  obtain ⟨u, v, rfl⟩ := h
  exact ⟨t ++ u, v, by simp [List.append_assoc]⟩

theorem substrOf_appR (p s t : Str) (h : substrOf p s) : substrOf p (s ++ t) := by
  obtain ⟨u, v, rfl⟩ := h
  exact ⟨u, v ++ t, by simp [List.append_assoc]⟩

/-! ### C9 — confidence-probe failure never blocks an answer -/

/-- C9: when the rerank capability raises on every call (so the confidence
probe fails), `top_score` defaults to `1.0`; hence on any cache miss with a
non-empty ranked result, `compose_answer_page` does not take the
low-confidence fallback branch and proceeds to the full-synthesis branch. -/
theorem c9_probe_failure_full_synthesis (env : Env) (st : St) (q layout : Str)
    (inc : Bool) (bc pr base : Str)
    (hmiss : memoHit (cleanup_answers env.now st.answers) st.pages
        (cache_key env.sha q layout inc bc pr) = none)
    (hne : (search_docs env.allDocs env.bm25 env.rerank q FINAL_DOCS).isEmpty = false)
    (herr : ∀ qq ds n, env.rerank qq ds n = .error ()) :
    topScoreOf env q (search_docs env.allDocs env.bm25 env.rerank q FINAL_DOCS) = 1 ∧
    compose_answer_page env st q layout inc bc pr base =
      composeSynth env { pages := st.pages, answers := cleanup_answers env.now st.answers }
        (cache_key env.sha q layout inc bc pr) (trace_id_for env.sha q)
        q layout inc bc pr base
        (search_docs env.allDocs env.bm25 env.rerank q FINAL_DOCS) := by
  have htop : topScoreOf env q (search_docs env.allDocs env.bm25 env.rerank q FINAL_DOCS)
      = 1 := by
    rw [topScoreOf, herr]
  refine ⟨htop, ?_⟩
  rw [compose_answer_page_miss env st q layout inc bc pr base hmiss, hne]
  simp only [Bool.false_eq_true, if_false]
  rw [htop,
    if_neg (by norm_num [RERANK_THRESHOLD] :
      ¬ (RERANK_THRESHOLD ≠ 0 ∧ (1 : ℚ) < RERANK_THRESHOLD))]

/-- Witness for C9: the one-document corpus with an always-raising rerank
oracle. -/
theorem c9_probe_failure_full_synthesis_witness :
    memoHit (cleanup_answers c9Env.now emptySt.answers) emptySt.pages
        (cache_key c9Env.sha ("services".data) ("standard".data) true
          ("agent42labs".data) ("#16a34a".data)) = none ∧
    (search_docs c9Env.allDocs c9Env.bm25 c9Env.rerank ("services".data) FINAL_DOCS).isEmpty
      = false ∧
    (∀ qq ds n, c9Env.rerank qq ds n = .error ()) ∧
    (topScoreOf c9Env ("services".data)
        (search_docs c9Env.allDocs c9Env.bm25 c9Env.rerank ("services".data) FINAL_DOCS) = 1 ∧
      compose_answer_page c9Env emptySt ("services".data) ("standard".data) true
          ("agent42labs".data) ("#16a34a".data) ("https://x".data) =
        composeSynth c9Env
          { pages := emptySt.pages, answers := cleanup_answers c9Env.now emptySt.answers }
          (cache_key c9Env.sha ("services".data) ("standard".data) true
            ("agent42labs".data) ("#16a34a".data))
          (trace_id_for c9Env.sha ("services".data))
          ("services".data) ("standard".data) true ("agent42labs".data) ("#16a34a".data)
          ("https://x".data)
          (search_docs c9Env.allDocs c9Env.bm25 c9Env.rerank ("services".data) FINAL_DOCS)) :=
  ⟨rfl, rfl, fun _ _ _ => rfl,
    c9_probe_failure_full_synthesis c9Env emptySt ("services".data) ("standard".data) true
      ("agent42labs".data) ("#16a34a".data) ("https://x".data) rfl rfl (fun _ _ _ => rfl)⟩

/-! ### C5 — distinct failure-mode fallback pages -/

set_option maxRecDepth 8000 in
/-- C5: on a cache miss with an empty ranked result, compose returns a page
titled by `noSourcesPlan` (the literal "No sources available") whose rendered
article carries no citations section; on a cache miss with a non-empty ranked
result but a probe score below the threshold, compose returns the fixed
low-confidence title, which is distinct from the no-sources title. -/
theorem c5_distinct_fallback_pages (env1 env2 : Env) (st1 st2 : St)
    (q1 q2 layout : Str) (inc1 inc2 : Bool) (bc pr base : Str)
    (hm1 : memoHit (cleanup_answers env1.now st1.answers) st1.pages
        (cache_key env1.sha q1 layout inc1 bc pr) = none)
    (hempty : (search_docs env1.allDocs env1.bm25 env1.rerank q1 FINAL_DOCS).isEmpty = true)
    (hm2 : memoHit (cleanup_answers env2.now st2.answers) st2.pages
        (cache_key env2.sha q2 layout inc2 bc pr) = none)
    (hne : (search_docs env2.allDocs env2.bm25 env2.rerank q2 FINAL_DOCS).isEmpty = false)
    (hlow : topScoreOf env2 q2 (search_docs env2.allDocs env2.bm25 env2.rerank q2 FINAL_DOCS)
      < RERANK_THRESHOLD) :
    (compose_answer_page env1 st1 q1 layout inc1 bc pr base).1.title = noSourcesPlan.title ∧
    noSourcesPlan.title = ("No sources available".data) ∧
    occCount ("src-".data) (render_article noSourcesPlan [] ("agent42labs".data) false []) = 0 ∧
    occCount ("Content sources".data)
      (render_article noSourcesPlan [] ("agent42labs".data) false []) = 0 ∧
    (compose_answer_page env2 st2 q2 layout inc2 bc pr base).1.title = lowConfPlan.title ∧
    noSourcesPlan.title ≠ lowConfPlan.title := by
  refine ⟨?_, rfl, by decide, by decide, ?_, by decide⟩
  · rw [compose_answer_page_miss env1 st1 q1 layout inc1 bc pr base hm1, if_pos hempty]
    rfl
  · rw [compose_answer_page_miss env2 st2 q2 layout inc2 bc pr base hm2, hne]
    simp only [Bool.false_eq_true, if_false]
    rw [if_pos ⟨by norm_num [RERANK_THRESHOLD], hlow⟩]
    rfl

/-- Witness for C5: the empty corpus on one side, the low-score rerank
oracle on the other. -/
theorem c5_distinct_fallback_pages_witness :
    memoHit (cleanup_answers c5EnvA.now emptySt.answers) emptySt.pages
        (cache_key c5EnvA.sha ("What services do you offer?".data) ("standard".data) true
          ("agent42labs".data) ("#16a34a".data)) = none ∧
    (search_docs c5EnvA.allDocs c5EnvA.bm25 c5EnvA.rerank
        ("What services do you offer?".data) FINAL_DOCS).isEmpty = true ∧
    memoHit (cleanup_answers c5EnvB.now emptySt.answers) emptySt.pages
        (cache_key c5EnvB.sha ("What services do you offer?".data) ("standard".data) true
          ("agent42labs".data) ("#16a34a".data)) = none ∧
    (search_docs c5EnvB.allDocs c5EnvB.bm25 c5EnvB.rerank
        ("What services do you offer?".data) FINAL_DOCS).isEmpty = false ∧
    topScoreOf c5EnvB ("What services do you offer?".data)
        (search_docs c5EnvB.allDocs c5EnvB.bm25 c5EnvB.rerank
          ("What services do you offer?".data) FINAL_DOCS) < RERANK_THRESHOLD ∧
    ((compose_answer_page c5EnvA emptySt ("What services do you offer?".data)
        ("standard".data) true ("agent42labs".data) ("#16a34a".data)
        ("https://x".data)).1.title = noSourcesPlan.title ∧
      noSourcesPlan.title = ("No sources available".data) ∧
      occCount ("src-".data) (render_article noSourcesPlan [] ("agent42labs".data) false []) = 0 ∧
      occCount ("Content sources".data)
        (render_article noSourcesPlan [] ("agent42labs".data) false []) = 0 ∧
      (compose_answer_page c5EnvB emptySt ("What services do you offer?".data)
        ("standard".data) true ("agent42labs".data) ("#16a34a".data)
        ("https://x".data)).1.title = lowConfPlan.title ∧
      noSourcesPlan.title ≠ lowConfPlan.title) :=
  ⟨rfl, rfl, rfl, rfl,
    by
      have h : topScoreOf c5EnvB ("What services do you offer?".data)
          (search_docs c5EnvB.allDocs c5EnvB.bm25 c5EnvB.rerank
            ("What services do you offer?".data) FINAL_DOCS) = 1/10 := rfl
      rw [h]
      norm_num [RERANK_THRESHOLD],
    c5_distinct_fallback_pages c5EnvA c5EnvB emptySt emptySt
      ("What services do you offer?".data) ("What services do you offer?".data)
      ("standard".data) true true ("agent42labs".data) ("#16a34a".data) ("https://x".data)
      rfl rfl rfl rfl
      (by
        have h : topScoreOf c5EnvB ("What services do you offer?".data)
            (search_docs c5EnvB.allDocs c5EnvB.bm25 c5EnvB.rerank
              ("What services do you offer?".data) FINAL_DOCS) = 1/10 := rfl
        rw [h]
        norm_num [RERANK_THRESHOLD])⟩

/-! ### C6 — planner-output parsing and planner-failure fallback -/

/-- C6: the planner output is parsed directly; if direct parsing fails the
first `\x7b...\x7d` span is parsed; and if that also fails, the synthesis
branch proceeds with the minimal one-section plan built from the top-ranked
source's title and excerpt instead of raising. -/
theorem c6_planner_parse_and_fallback (env : Env) (st : St) (ck tr q layout : Str)
    (inc : Bool) (bc pr base : Str) (doc_hits : List Doc) (raw : Str)
    (hgen : env.gen (build_planner_prompt q (mkSources doc_hits) layout inc) = .ok raw) :
    (∀ p, env.parseJson (pyStrip raw) = some p →
      cohere_plan env.gen env.parseJson
        (build_planner_prompt q (mkSources doc_hits) layout inc) = .ok p) ∧
    (∀ sl p, env.parseJson (pyStrip raw) = none → braceSlice (pyStrip raw) = some sl →
      env.parseJson sl = some p →
      cohere_plan env.gen env.parseJson
        (build_planner_prompt q (mkSources doc_hits) layout inc) = .ok p) ∧
    (env.parseJson (pyStrip raw) = none →
      (∀ sl, braceSlice (pyStrip raw) = some sl → env.parseJson sl = none) →
      cohere_plan env.gen env.parseJson
        (build_planner_prompt q (mkSources doc_hits) layout inc) = .error () ∧
      (∀ top : Src, (plannerFallbackPlan top).title = top.title ∧
        (plannerFallbackPlan top).sections =
          [⟨("s1".data), top.title, [top.text_chunk], []⟩]) ∧
      composeSynth env st ck tr q layout inc bc pr base doc_hits =
        finishPage env st ck tr
          (if (plannerFallbackPlan ((mkSources doc_hits).headD dfltSrc)).title = []
            then ("Article".data)
            else (plannerFallbackPlan ((mkSources doc_hits).headD dfltSrc)).title)
          (linkify_citations
            (env.san (render_article (plannerFallbackPlan ((mkSources doc_hits).headD dfltSrc))
              (dedupe_citations ((mkSources doc_hits).map (fun s => Cit.mk s.title s.url)))
              bc inc (synthImages env q doc_hits)))
            (dedupe_citations ((mkSources doc_hits).map (fun s => Cit.mk s.title s.url))))
          bc pr base) := by
  refine ⟨?_, ?_, ?_⟩
  · intro p hp
    rw [cohere_plan, hgen]
    simp only [hp]
  · intro sl p hp1 hbs hp2
    rw [cohere_plan, hgen]
    simp only [hp1, hbs, hp2]
  · intro hp1 hp2
    have hcp : cohere_plan env.gen env.parseJson
        (build_planner_prompt q (mkSources doc_hits) layout inc) = .error () := by
      rw [cohere_plan, hgen]
      cases hbs : braceSlice (pyStrip raw) with
      | none => simp only [hp1, hbs]
      | some sl => simp only [hp1, hbs, hp2 sl hbs]
    refine ⟨hcp, fun top => ⟨rfl, rfl⟩, ?_⟩
    simp only [composeSynth, hcp]

/-- Witness for C6: generation returns an unparseable string and the JSON
oracle rejects everything. -/
theorem c6_planner_parse_and_fallback_witness :
    c6Env.gen (build_planner_prompt ("services".data) (mkSources [c9Doc])
        ("standard".data) true) = .ok c6Raw ∧
    ((∀ p, c6Env.parseJson (pyStrip c6Raw) = some p →
      cohere_plan c6Env.gen c6Env.parseJson
        (build_planner_prompt ("services".data) (mkSources [c9Doc])
          ("standard".data) true) = .ok p) ∧
    (∀ sl p, c6Env.parseJson (pyStrip c6Raw) = none → braceSlice (pyStrip c6Raw) = some sl →
      c6Env.parseJson sl = some p →
      cohere_plan c6Env.gen c6Env.parseJson
        (build_planner_prompt ("services".data) (mkSources [c9Doc])
          ("standard".data) true) = .ok p) ∧
    (c6Env.parseJson (pyStrip c6Raw) = none →
      (∀ sl, braceSlice (pyStrip c6Raw) = some sl → c6Env.parseJson sl = none) →
      cohere_plan c6Env.gen c6Env.parseJson
        (build_planner_prompt ("services".data) (mkSources [c9Doc])
          ("standard".data) true) = .error () ∧
      (∀ top : Src, (plannerFallbackPlan top).title = top.title ∧
        (plannerFallbackPlan top).sections =
          [⟨("s1".data), top.title, [top.text_chunk], []⟩]) ∧
      composeSynth c6Env emptySt ("ck0".data) ("tr0".data) ("services".data)
          ("standard".data) true ("agent42labs".data) ("#16a34a".data)
          ("https://x".data) [c9Doc] =
        finishPage c6Env emptySt ("ck0".data) ("tr0".data)
          (if (plannerFallbackPlan ((mkSources [c9Doc]).headD dfltSrc)).title = []
            then ("Article".data)
            else (plannerFallbackPlan ((mkSources [c9Doc]).headD dfltSrc)).title)
          (linkify_citations
            (c6Env.san (render_article (plannerFallbackPlan ((mkSources [c9Doc]).headD dfltSrc))
              (dedupe_citations ((mkSources [c9Doc]).map (fun s => Cit.mk s.title s.url)))
              ("agent42labs".data) true
              (synthImages c6Env ("services".data) [c9Doc])))
            (dedupe_citations ((mkSources [c9Doc]).map (fun s => Cit.mk s.title s.url))))
          ("agent42labs".data) ("#16a34a".data) ("https://x".data))) :=
  ⟨rfl,
    c6_planner_parse_and_fallback c6Env emptySt ("ck0".data) ("tr0".data) ("services".data)
      ("standard".data) true ("agent42labs".data) ("#16a34a".data) ("https://x".data)
      [c9Doc] c6Raw rfl⟩

/-! ### The full-page template, flattened (used by the C7 proofs) -/

/-- `build_fullpage_html` with its three local bindings substituted; proved
by unfolding alone. -/
theorem build_fullpage_html_parts (slug : Str → Str)
    (title article_html brand_class primary trace_id page_id base_url : Str) :
    build_fullpage_html slug title article_html brand_class primary trace_id page_id base_url =
  ("<!doctype html>\n<html lang=\"en\">\n<head>\n  <meta charset=\"utf-8\" />\n  <title>".data)
  ++ title
  ++ ("</title>\n  <meta name=\"description\" content=\"Detailed article page for ".data)
  ++ title
  ++ ("\" />\n  <meta name=\"viewport\" content=\"width=device-width, initial-scale=1\" />\n  <meta name=\"x-trace-id\" content=\"".data)
  ++ trace_id
  ++ ("\" />\n  <link rel=\"canonical\" href=\"".data)
  ++ (base_url ++ ("/v/".data) ++ page_id)
  ++ ("\" />\n  <meta property=\"og:title\" content=\"".data)
  ++ title
  ++ ("\" />\n  <meta property=\"og:type\" content=\"article\" />\n  <meta property=\"og:url\" content=\"".data)
  ++ (base_url ++ ("/v/".data) ++ page_id)
  ++ ("\" />\n  <meta name=\"theme-color\" content=\"".data)
  ++ primary
  ++ ("\" />\n  <style>\n    :root \x7b\n      --primary: ".data)
  ++ primary
  ++ (";\n      --text: #0f172a;\n      --muted: #64748b;\n      --bg: #f3f6fb;\n      --card-bg: rgba(255, 255, 255, 0.3);\n      --border: rgba(15, 23, 42, 0.08);\n      --shadow-default: 0 14px 40px rgba(15, 23, 42, 0.08);\n      --shadow-glass: 0 8px 32px 0 rgba(31, 38, 135, 0.37);\n      --pill-radius: 9999px;\n      --card-radius: 16px;\n      --max-width: 980px;\n      --font-family: ui-sans-serif, system-ui, -apple-system, Segoe UI, Roboto, Inter, Arial, sans-serif;\n    \x7d\n    html, body \x7b\n      margin: 0; padding: 0;\n      background: var(--bg);\n      color: var(--text);\n      font-family: var(--font-family);\n      scroll-behavior: smooth;\n      min-height: 100vh;\n    \x7d\n\n    /* Removed top header for buttons */\n\n    .wrap \x7b\n      margin: 18px auto 40px;\n      max-width: var(--max-width);\n      padding: 0 16px;\n      min-height: calc(100vh - 150px);\n      display: flex;\n      justify-content: center;\n      align-items: flex-start;\n    \x7d\n\n    .card \x7b\n      background: var(--card-bg);\n      border-radius: var(--card-radius);\n      box-shadow: var(--shadow-glass);\n      border: 1px solid rgba(255, 255, 255, 0.18);\n      backdrop-filter: blur(8px);\n      -webkit-backdrop-filter: blur(8px);\n      padding: clamp(24px, 3vw, 32px);\n      width: 100%;\n      max-width: var(--max-width);\n      display: flex;\n      flex-direction: column;\n      box-sizing: border-box;\n    \x7d\n\n    /* Moved action buttons inside card, style them */\n    .actions \x7b\n      display: flex;\n      flex-wrap: wrap;\n      gap: 8px;\n      align-items: center;\n      justify-content: flex-end;\n      margin-bottom: 1.5rem;\n      min-width: 200px;\n    \x7d\n    @media (max-width: 480px) \x7b\n      .actions \x7b\n        flex-direction: column;\n        align-items: stretch;\n        gap: 6px;\n        min-width: 100%;\n      \x7d\n    \x7d\n\n    .btn \x7b\n      display: inline-flex;\n      align-items: center;\n      gap: 8px;\n      font-weight: 700;\n      padding: 9px 12px;\n      border-radius: var(--pill-radius);\n      border: 1px solid var(--border);\n      background: #eef2f7;\n      color: var(--text);\n      cursor: pointer;\n      text-decoration: none;\n      transition: transform 0.08s ease, filter 0.2s ease;\n      font-size: 0.9rem;\n      user-select: none;\n    \x7d\n    .btn:hover \x7b\n      filter: brightness(1.02);\n    \x7d\n    .btn:active \x7b\n      transform: translateY(1px);\n    \x7d\n    .btn:focus \x7b\n      outline: 2px solid var(--primary);\n      outline-offset: 2px;\n      outline-style: solid;\n    \x7d\n    .btn.primary \x7b\n      background: var(--primary);\n      color: #fff;\n      border-color: transparent;\n      box-shadow: 0 12px 26px rgba(34,197,94,0.25);\n    \x7d\n\n    /* Brand chip and contact styling */\n    .brand \x7b\n      display: flex;\n      align-items: center;\n      gap: 12px;\n      margin-top: 2rem;\n      user-select: none;\n    \x7d\n    .chip \x7b\n      width: 36px;\n      height: 36px;\n      display: grid;\n      place-items: center;\n      border-radius: 50%;\n      background: var(--primary);\n      color: #fff;\n      font-weight: 900;\n      font-size: 18px;\n      box-shadow: 0 8px 20px rgba(34, 197, 94, 0.35);\n      flex-shrink: 0;\n    \x7d\n    .brand-name \x7b\n      font-weight: 600;\n      font-size: 1.125rem;\n      color: #3b3c4a;\n      user-select: text;\n    \x7d\n    .contact \x7b\n      margin-top: 1.25rem;\n      font-size: 1rem;\n      color: var(--muted, #64748b);\n      line-height: 1.5;\n    \x7d\n    .contact strong \x7b\n      display: block;\n      margin-bottom: 0.4rem;\n      color: var(--text);\n      font-weight: 600;\n    \x7d\n    .contact a \x7b\n      color: var(--primary);\n      text-decoration: none;\n      transition: color 0.2s ease;\n    \x7d\n    .contact a:hover \x7b\n      text-decoration: underline;\n    \x7d\n\n    /* Spacing between paragraphs and lists */\n    .".data)
  ++ brand_class
  ++ (" p,\n    .".data)
  ++ brand_class
  ++ (" li,\n    .".data)
  ++ brand_class
  ++ (" ul,\n    .".data)
  ++ brand_class
  ++ (" ol \x7b\n      margin-bottom: 0.85em;\n    \x7d\n\n    .".data)
  ++ brand_class
  ++ (" ul, .".data)
  ++ brand_class
  ++ (" ol \x7b\n      margin-top: 0.5em;\n      padding-left: 2em;\n    \x7d\n\n    .".data)
  ++ brand_class
  ++ (" li \x7b\n      line-height: 1.8;\n    \x7d\n\n    @media print \x7b\n      .actions \x7b\n        display: none !important;\n      \x7d\n      body \x7b\n        background: #fff;\n      \x7d\n      .card \x7b\n        box-shadow: none;\n        border: none;\n        padding: 0;\n        backdrop-filter: none;\n      \x7d\n      a \x7b\n        color: #000;\n        text-decoration: underline;\n      \x7d\n    \x7d\n  </style>\n</head>\n<body>\n\n  <main class=\"wrap\" role=\"main\">\n    <div class=\"card ".data)
  ++ brand_class
  ++ ("\">\n\n      <!-- Actions moved inside card -->\n      <nav class=\"actions\" aria-label=\"Page actions\">\n        <a class=\"btn primary\" href=\"".data)
  ++ (base_url ++ ("/v/".data) ++ page_id ++ ("/download".data))
  ++ ("\" download=\"".data)
  ++ (slug (if title = [] then ("article".data) else title))
  ++ (".html\" aria-label=\"Download article as HTML\">\n          <svg width=\"16\" height=\"16\" viewBox=\"0 0 24 24\" stroke=\"currentColor\" fill=\"none\" stroke-width=\"2\" aria-hidden=\"true\">\n            <path d=\"M12 3v12\"/>\n            <path d=\"M7 10l5 5 5-5\"/>\n            <path d=\"M5 21h14\"/>\n          </svg>\n          Download .html\n        </a>\n        <button class=\"btn\" id=\"print\" aria-label=\"Print or save as PDF\" title=\"Print or Save as PDF\">\n          <svg width=\"16\" height=\"16\" viewBox=\"0 0 24 24\" stroke=\"currentColor\" fill=\"none\" stroke-width=\"2\" aria-hidden=\"true\">\n            <path d=\"M6 9V2h12v7\"/>\n            <path d=\"M6 18h12v4H6z\"/>\n            <path d=\"M6 14h12\"/>\n          </svg>\n          Print / Save as PDF\n        </button>\n        <button class=\"btn\" id=\"copy\" aria-label=\"Copy current page link\" title=\"Copy Link\">\n          <svg width=\"16\" height=\"16\" viewBox=\"0 0 24 24\" stroke=\"currentColor\" fill=\"none\" stroke-width=\"2\" aria-hidden=\"true\">\n            <rect x=\"9\" y=\"9\" width=\"13\" height=\"13\" rx=\"2\"/>\n            <rect x=\"2\" y=\"2\" width=\"13\" height=\"13\" rx=\"2\"/>\n          </svg>\n          Copy link\n        </button>\n      </nav>\n\n      ".data)
  ++ article_html
  ++ ("\n\n      <div class=\"brand\" aria-label=\"Brand identity\">\n        <div class=\"chip\" aria-label=\"Brand initial\">".data)
  ++ pyUpperFirst brand_class
  ++ ("</div>\n        <div class=\"brand-name\">".data)
  ++ brand_class
  ++ ("</div>\n      </div>\n      <div class=\"contact\" aria-label=\"Contact information\">\n        <strong>Contact us</strong>\n        Email: <a href=\"mailto:".data)
  ++ CONTACT_EMAIL
  ++ ("\">".data)
  ++ CONTACT_EMAIL
  ++ ("</a> · Phone: ".data)
  ++ CONTACT_PHONE
  ++ (" ·\n        <a href=\"".data)
  ++ CONTACT_URL
  ++ ("\" target=\"_blank\" rel=\"noopener noreferrer\">Contact page</a>\n      </div>\n    </div>\n  </main>\n  <script>\n    document.getElementById(\x27print\x27).onclick = () => window.print();\n    document.getElementById(\x27copy\x27).onclick = async () => \x7b\n      try \x7b\n        await navigator.clipboard.writeText(window.location.href);\n        const btn = document.getElementById(\x27copy\x27);\n        const originalText = btn.textContent;\n        btn.textContent = \x27Copied!\x27;\n        setTimeout(() => btn.textContent = originalText, 1000);\n      \x7d catch (e) \x7b\n        console.warn(\x27Clipboard write failed\x27, e);\n      \x7d\n    \x7d;\n  </script>\n</body>\n</html>\n".data)
  := rfl

/-! ### C7 — two-phase page persistence -/

set_option maxRecDepth 65536 in
/-- C7: every page-storing compose branch ends in `finishPage`, which first
stores the page with the placeholder-id html to materialise the real id and
then overwrites the html in place with the real-id rebuild; on return the
stored page's html is the real-id version, it embeds the canonical URL and
the download link of the page's own id, and (whenever the fresh id differs
in length from `"tmp"`) it is not the placeholder-id html. -/
theorem c7_two_phase_persistence (env : Env) (st : St) (ck tr title safe bc pr base : Str)
    (hids : (env.ids 0).length ≠ ("tmp".data).length) :
    finishPage env st ck tr title safe bc pr base =
      (let saved := save_page (env.ids 0) env.now title
          (build_fullpage_html env.slug title safe bc pr tr ("tmp".data) base) st.pages
       (⟨saved.1, title, tr⟩,
        { pages := setPageHtml saved.1
            (build_fullpage_html env.slug title safe bc pr tr saved.1 base) saved.2,
          answers := dset ck ⟨saved.1, env.now⟩ st.answers })) ∧
    ((finishPage env st ck tr title safe bc pr base).2.pages).lookup (env.ids 0) =
      some ⟨title, build_fullpage_html env.slug title safe bc pr tr (env.ids 0) base,
        env.now⟩ ∧
    substrOf (base ++ ("/v/".data) ++ env.ids 0)
      (build_fullpage_html env.slug title safe bc pr tr (env.ids 0) base) ∧
    substrOf ((base ++ ("/v/".data) ++ env.ids 0) ++ ("/download".data))
      (build_fullpage_html env.slug title safe bc pr tr (env.ids 0) base) ∧
    build_fullpage_html env.slug title safe bc pr tr (env.ids 0) base ≠
      build_fullpage_html env.slug title safe bc pr tr ("tmp".data) base := by
  refine ⟨rfl, finishPage_pages_lookup env st ck tr title safe bc pr base, ?_, ?_, ?_⟩
  · rw [build_fullpage_html_parts]
    apply substrOf_appR
    apply substrOf_appR
    apply substrOf_appR
    apply substrOf_appR
    apply substrOf_appR
    apply substrOf_appR
    apply substrOf_appR
    apply substrOf_appR
    apply substrOf_appR
    apply substrOf_appR
    apply substrOf_appR
    apply substrOf_appR
    apply substrOf_appR
    apply substrOf_appR
    apply substrOf_appR
    apply substrOf_appR
    apply substrOf_appR
    apply substrOf_appR
    apply substrOf_appR
    apply substrOf_appR
    apply substrOf_appR
    apply substrOf_appR
    apply substrOf_appR
    apply substrOf_appR
    apply substrOf_appR
    apply substrOf_appR
    apply substrOf_appR
    apply substrOf_appR
    apply substrOf_appR
    apply substrOf_appR
    apply substrOf_appR
    apply substrOf_appR
    apply substrOf_appR
    apply substrOf_appR
    apply substrOf_appR
    apply substrOf_appR
    apply substrOf_appR
    apply substrOf_appR
    apply substrOf_appR
    apply substrOf_appR
    apply substrOf_appR
    apply substrOf_appR
    apply substrOf_appR
    apply substrOf_appL
    exact substrOf_self _
  · rw [build_fullpage_html_parts]
    apply substrOf_appR
    apply substrOf_appR
    apply substrOf_appR
    apply substrOf_appR
    apply substrOf_appR
    apply substrOf_appR
    apply substrOf_appR
    apply substrOf_appR
    apply substrOf_appR
    apply substrOf_appR
    apply substrOf_appR
    apply substrOf_appR
    apply substrOf_appR
    apply substrOf_appR
    apply substrOf_appR
    apply substrOf_appR
    apply substrOf_appR
    apply substrOf_appL
    exact substrOf_self _
  · intro heq
    have hlen := congrArg List.length heq
    rw [build_fullpage_html_parts env.slug title safe bc pr tr (env.ids 0) base,
      build_fullpage_html_parts env.slug title safe bc pr tr ("tmp".data) base] at hlen
    repeat rw [List.length_append] at hlen
    exact hids (by omega)

/-- Witness for C7 at the concrete environment, whose fresh ids are 14
characters long. -/
theorem c7_two_phase_persistence_witness :
    (c9Env.ids 0).length ≠ ("tmp".data).length ∧
    (finishPage c9Env emptySt ("ck0".data) ("tr0".data) ("T".data) ("safe".data)
        ("agent42labs".data) ("#16a34a".data) ("https://x".data) =
      (let saved := save_page (c9Env.ids 0) c9Env.now ("T".data)
          (build_fullpage_html c9Env.slug ("T".data) ("safe".data) ("agent42labs".data)
            ("#16a34a".data) ("tr0".data) ("tmp".data) ("https://x".data)) emptySt.pages
       (⟨saved.1, ("T".data), ("tr0".data)⟩,
        { pages := setPageHtml saved.1
            (build_fullpage_html c9Env.slug ("T".data) ("safe".data) ("agent42labs".data)
              ("#16a34a".data) ("tr0".data) saved.1 ("https://x".data)) saved.2,
          answers := dset ("ck0".data) ⟨saved.1, c9Env.now⟩ emptySt.answers })) ∧
    ((finishPage c9Env emptySt ("ck0".data) ("tr0".data) ("T".data) ("safe".data)
        ("agent42labs".data) ("#16a34a".data) ("https://x".data)).2.pages).lookup
        (c9Env.ids 0) =
      some ⟨("T".data), build_fullpage_html c9Env.slug ("T".data) ("safe".data)
        ("agent42labs".data) ("#16a34a".data) ("tr0".data) (c9Env.ids 0)
        ("https://x".data), c9Env.now⟩ ∧
    substrOf (("https://x".data) ++ ("/v/".data) ++ c9Env.ids 0)
      (build_fullpage_html c9Env.slug ("T".data) ("safe".data) ("agent42labs".data)
        ("#16a34a".data) ("tr0".data) (c9Env.ids 0) ("https://x".data)) ∧
    substrOf ((("https://x".data) ++ ("/v/".data) ++ c9Env.ids 0) ++ ("/download".data))
      (build_fullpage_html c9Env.slug ("T".data) ("safe".data) ("agent42labs".data)
        ("#16a34a".data) ("tr0".data) (c9Env.ids 0) ("https://x".data)) ∧
    build_fullpage_html c9Env.slug ("T".data) ("safe".data) ("agent42labs".data)
        ("#16a34a".data) ("tr0".data) (c9Env.ids 0) ("https://x".data) ≠
      build_fullpage_html c9Env.slug ("T".data) ("safe".data) ("agent42labs".data)
        ("#16a34a".data) ("tr0".data) ("tmp".data) ("https://x".data)) :=
  ⟨by decide,
    c7_two_phase_persistence c9Env emptySt ("ck0".data) ("tr0".data) ("T".data)
      ("safe".data) ("agent42labs".data) ("#16a34a".data) ("https://x".data) (by decide)⟩

/-! ### C1 — memoization idempotence -/

/-- C1: a second compose call whose question has the same normalised text
and the same layout/citation/brand/colour parameters, issued within the
answer TTL of a first (cache-missing) call and with the first call's stored
page still present, returns the very same page id; the second call's
environment is otherwise arbitrary (its retrieval, ranking and generation
capabilities are unconstrained and unused), and its page store is returned
unchanged — no new page is generated. -/
theorem c1_memoization_idempotence (env1 env2 : Env) (st : St) (q1 q2 layout : Str)
    (inc : Bool) (bc pr base : Str)
    (hsha : env2.sha = env1.sha)
    (hq : normQuestion q2 = normQuestion q1)
    (hmiss : memoHit (cleanup_answers env1.now st.answers) st.pages
        (cache_key env1.sha q1 layout inc bc pr) = none)
    (httl : env2.now - env1.now ≤ ANSWER_TTL_SEC) :
    (compose_answer_page env2 (compose_answer_page env1 st q1 layout inc bc pr base).2
        q2 layout inc bc pr base).1.id =
      (compose_answer_page env1 st q1 layout inc bc pr base).1.id ∧
    (compose_answer_page env2 (compose_answer_page env1 st q1 layout inc bc pr base).2
        q2 layout inc bc pr base).2.pages =
      (compose_answer_page env1 st q1 layout inc bc pr base).2.pages := by
  obtain ⟨hid, hans, pg, hpg, hpgt⟩ :=
    compose_miss_post env1 st q1 layout inc bc pr base hmiss
  have hck : cache_key env2.sha q2 layout inc bc pr =
      cache_key env1.sha q1 layout inc bc pr := by
    rw [cache_key, cache_key, hsha, hq]
  have hkeep : ((fun (kv : Str × CEnt) => ! decide (ANSWER_TTL_SEC < env2.now - kv.2.ts))
      (cache_key env1.sha q1 layout inc bc pr, ⟨env1.ids 0, env1.now⟩)) = true := by
    simp only [Bool.not_eq_true', decide_eq_false_iff_not]
    exact not_lt.mpr (by linarith)
  have hlk : (cleanup_answers env2.now
        (compose_answer_page env1 st q1 layout inc bc pr base).2.answers).lookup
        (cache_key env1.sha q1 layout inc bc pr) =
      some ⟨env1.ids 0, env1.now⟩ := by
    rw [hans]
    exact lookup_filter_dset hkeep _
  have hmh : memoHit (cleanup_answers env2.now
        (compose_answer_page env1 st q1 layout inc bc pr base).2.answers)
      (compose_answer_page env1 st q1 layout inc bc pr base).2.pages
      (cache_key env2.sha q2 layout inc bc pr) = some (env1.ids 0, pg) := by
    rw [hck]
    exact memoHit_some _ _ _ ⟨env1.ids 0, env1.now⟩ pg hlk hpg
  rw [compose_answer_page_hit env2 (compose_answer_page env1 st q1 layout inc bc pr base).2
    q2 layout inc bc pr base (env1.ids 0) pg hmh]
  exact ⟨hid.symm, rfl⟩

/-- Witness for C1: two identical calls in the concrete environment. -/
theorem c1_memoization_idempotence_witness :
    c9Env.sha = c9Env.sha ∧
    normQuestion ("services".data) = normQuestion ("services".data) ∧
    memoHit (cleanup_answers c9Env.now emptySt.answers) emptySt.pages
        (cache_key c9Env.sha ("services".data) ("standard".data) true
          ("agent42labs".data) ("#16a34a".data)) = none ∧
    c9Env.now - c9Env.now ≤ ANSWER_TTL_SEC ∧
    ((compose_answer_page c9Env
        (compose_answer_page c9Env emptySt ("services".data) ("standard".data) true
          ("agent42labs".data) ("#16a34a".data) ("https://x".data)).2
        ("services".data) ("standard".data) true ("agent42labs".data) ("#16a34a".data)
        ("https://x".data)).1.id =
      (compose_answer_page c9Env emptySt ("services".data) ("standard".data) true
        ("agent42labs".data) ("#16a34a".data) ("https://x".data)).1.id ∧
    (compose_answer_page c9Env
        (compose_answer_page c9Env emptySt ("services".data) ("standard".data) true
          ("agent42labs".data) ("#16a34a".data) ("https://x".data)).2
        ("services".data) ("standard".data) true ("agent42labs".data) ("#16a34a".data)
        ("https://x".data)).2.pages =
      (compose_answer_page c9Env emptySt ("services".data) ("standard".data) true
        ("agent42labs".data) ("#16a34a".data) ("https://x".data)).2.pages) :=
  ⟨rfl, rfl, rfl, by norm_num [ANSWER_TTL_SEC],
    c1_memoization_idempotence c9Env c9Env emptySt ("services".data) ("services".data)
      ("standard".data) true ("agent42labs".data) ("#16a34a".data) ("https://x".data)
      rfl rfl rfl (by norm_num [ANSWER_TTL_SEC])⟩

/-! ### C8 — page TTL expiry -/

/-- C8: a stored page older than `PAGES_TTL_SEC` is unreachable through
`view_page` and `download_page` (both serve not-found); and an answer-cache
entry recorded for it no more than `ANSWER_TTL_SEC` after the page was
stored is swept on the next compose call with the same fingerprint, which
therefore misses and generates a fresh page (no error). -/
theorem c8_page_ttl_expiry (env : Env) (st : St) (q layout : Str) (inc : Bool)
    (bc pr base : Str) (sf : Str → Str) (pid : Str) (p : Page) (ent : CEnt)
    (hnodupP : (st.pages.map Prod.fst).Nodup)
    (hnodupA : (st.answers.map Prod.fst).Nodup)
    (hpage : st.pages.lookup pid = some p)
    (hexp : PAGES_TTL_SEC < env.now - p.ts)
    (hent : st.answers.lookup (cache_key env.sha q layout inc bc pr) = some ent)
    (hpid : ent.page_id = pid)
    (hts : ent.ts ≤ p.ts + ANSWER_TTL_SEC) :
    (view_page st env.now pid).2 = none ∧
    (download_page sf st env.now pid).2 = none ∧
    memoHit (cleanup_answers env.now st.answers) st.pages
      (cache_key env.sha q layout inc bc pr) = none ∧
    (compose_answer_page env st q layout inc bc pr base).1.id = env.ids 0 ∧
    (∃ pg : Page,
      ((compose_answer_page env st q layout inc bc pr base).2.pages).lookup (env.ids 0) =
        some pg) := by
  have hdropP : ((fun (kv : Str × Page) => ! decide (PAGES_TTL_SEC < env.now - kv.2.ts))
      (pid, p)) = false := by
    simp only [Bool.not_eq_false', decide_eq_true_eq]
    exact hexp
  have hpv : (cleanup_pages env.now st.pages).lookup pid = none :=
    lookup_filter_none_of_dropped hnodupP hpage hdropP
  have hdropA : ((fun (kv : Str × CEnt) => ! decide (ANSWER_TTL_SEC < env.now - kv.2.ts))
      (cache_key env.sha q layout inc bc pr, ent)) = false := by
    simp only [Bool.not_eq_false', decide_eq_true_eq]
    have h1 : PAGES_TTL_SEC - ANSWER_TTL_SEC = ANSWER_TTL_SEC := by
      norm_num [PAGES_TTL_SEC, ANSWER_TTL_SEC]
    have h2 : (0 : ℚ) < ANSWER_TTL_SEC := by norm_num [ANSWER_TTL_SEC]
    have h3 : ANSWER_TTL_SEC ≤ PAGES_TTL_SEC := by
      norm_num [PAGES_TTL_SEC, ANSWER_TTL_SEC]
    linarith
  have hav : (cleanup_answers env.now st.answers).lookup
      (cache_key env.sha q layout inc bc pr) = none :=
    lookup_filter_none_of_dropped hnodupA hent hdropA
  have hmh : memoHit (cleanup_answers env.now st.answers) st.pages
      (cache_key env.sha q layout inc bc pr) = none :=
    memoHit_none_of_lookup_none _ _ _ hav
  obtain ⟨hid, hans, pg, hpg, hpgt⟩ := compose_miss_post env st q layout inc bc pr base hmh
  refine ⟨?_, ?_, hmh, hid, pg, hpg⟩
  · show ((cleanup_pages env.now st.pages).lookup pid).map (fun p => p.html) = none
    rw [hpv]
    rfl
  · show ((cleanup_pages env.now st.pages).lookup pid).map _ = none
    rw [hpv]
    rfl

/-- Witness for C8: a page stored at time 0, observed at `now = 100000`. -/
theorem c8_page_ttl_expiry_witness :
    (c8St.pages.map Prod.fst).Nodup ∧
    (c8St.answers.map Prod.fst).Nodup ∧
    c8St.pages.lookup ("pidOLD8".data) = some c8Page ∧
    PAGES_TTL_SEC < c8Env.now - c8Page.ts ∧
    c8St.answers.lookup (cache_key c8Env.sha c8Q ("standard".data) true
      ("agent42labs".data) ("#16a34a".data)) = some ⟨("pidOLD8".data), 0⟩ ∧
    (⟨("pidOLD8".data), 0⟩ : CEnt).page_id = ("pidOLD8".data) ∧
    (⟨("pidOLD8".data), 0⟩ : CEnt).ts ≤ c8Page.ts + ANSWER_TTL_SEC ∧
    ((view_page c8St c8Env.now ("pidOLD8".data)).2 = none ∧
      (download_page (fun s => s) c8St c8Env.now ("pidOLD8".data)).2 = none ∧
      memoHit (cleanup_answers c8Env.now c8St.answers) c8St.pages
        (cache_key c8Env.sha c8Q ("standard".data) true
          ("agent42labs".data) ("#16a34a".data)) = none ∧
      (compose_answer_page c8Env c8St c8Q ("standard".data) true
        ("agent42labs".data) ("#16a34a".data) ("https://x".data)).1.id = c8Env.ids 0 ∧
      (∃ pg : Page,
        ((compose_answer_page c8Env c8St c8Q ("standard".data) true
          ("agent42labs".data) ("#16a34a".data) ("https://x".data)).2.pages).lookup
            (c8Env.ids 0) = some pg)) :=
  ⟨by decide, by decide, rfl,
    by norm_num [PAGES_TTL_SEC, c8Env, c9Env, c8Page],
    rfl, rfl,
    by norm_num [ANSWER_TTL_SEC, c8Page],
    c8_page_ttl_expiry c8Env c8St c8Q ("standard".data) true
      ("agent42labs".data) ("#16a34a".data) ("https://x".data) (fun s => s)
      ("pidOLD8".data) c8Page ⟨("pidOLD8".data), 0⟩
      (by decide) (by decide) rfl
      (by norm_num [PAGES_TTL_SEC, c8Env, c9Env, c8Page])
      rfl rfl
      (by norm_num [ANSWER_TTL_SEC, c8Page])⟩

end App1
